import Mathlib

/-!
inigo: a verification development

A shallow embedding of the inigo integration harness:

* `stager_runner/stager_runner.go`: `New`, `Start`, `Stop`;
* `helpers/cleanup_garden.go`: `CleanupGarden`;
* `executor/executor_suite_test.go`: the per-test `AfterEach`;
* `cell/evacuation_test.go`: the two evacuation scenarios and the shell shim
  written by `replaceGrootFSWithHangingVersion`.

Go code that talks to the outside world is embedded by explicit state passing:
a block of test code is a function from a state to a result and a new state.
A failed Gomega assertion calls the registered fail handler, Ginkgo's `Fail`
(`RegisterFailHandler(Fail)` in `TestExecutor`), which panics: the rest of the
enclosing block does not run.  This is the `error` result of `Test`.
-/

/-! ## Test blocks: state passing with aborting assertions -/

/-- A block of test code over a state `σ`: it returns a value or aborts with a
failure message, and in both cases leaves a state behind. -/
def Test (σ : Type) (α : Type) : Type := σ → Except String α × σ

namespace Test

/-- Return a value without touching the state. -/
def ret {σ α : Type} (a : α) : Test σ α := fun s => (Except.ok a, s)

/-- Sequencing: when the first block aborts, the second one does not run. -/
def andThen {σ α β : Type} (m : Test σ α) (f : α → Test σ β) : Test σ β := fun s =>
  match m s with
  | (Except.ok a, s1) => f a s1
  | (Except.error e, s1) => (Except.error e, s1)

instance (σ : Type) : Monad (Test σ) where
  pure := ret
  bind := andThen

/-- Abort the block, as a failed assertion or a Go panic does. -/
def abort {σ α : Type} (msg : String) : Test σ α := fun s => (Except.error msg, s)

/-- A Gomega assertion: continue when the condition holds, abort when not. -/
def expect {σ : Type} (cond : Bool) (msg : String) : Test σ Unit := fun s =>
  if cond then (Except.ok (), s) else (Except.error msg, s)

/-- The assertion `Expect(err).NotTo(HaveOccurred())` on an error value. -/
def expectNoError {σ : Type} (err : Option String) : Test σ Unit :=
  match err with
  | none => ret ()
  | some e => abort ("Expected error not to have occurred: " ++ e)

/-- The same assertion on a call that returns a value and an error: the value is
handed on when the error is nil. -/
def expectOk {σ α : Type} (res : Except String α) : Test σ α :=
  match res with
  | Except.ok a => ret a
  | Except.error e => abort ("Expected error not to have occurred: " ++ e)

/-- Gomega `Eventually(f).Should(matcher)`: `f` is called once per poll until its value
satisfies the matcher; the list holds what the world shows at the successive polls
that fit into the timeout, and the assertion fails when they are used up. -/
def Eventually {σ α β : Type} (f : α → Test σ β) (matcher : β → Bool) : List α → Test σ Unit
  | [] => abort "Timed out"
  | a :: rest => andThen (f a) fun v =>
    if matcher v then ret () else Eventually f matcher rest

/-- Gomega `Consistently(f).Should(matcher)`: `f` is called once per poll of the window
and the assertion fails at the first value that does not satisfy the matcher. -/
def Consistently {σ α β : Type} (f : α → Test σ β) (matcher : β → Bool) : List α → Test σ Unit
  | [] => ret ()
  | a :: rest => andThen (f a) fun v =>
    if matcher v then Consistently f matcher rest else abort "Failed to consistently satisfy matcher"

/-- Read the state. -/
def get {σ : Type} : Test σ σ := fun s => (Except.ok s, s)

/-- Replace the state. -/
def set {σ : Type} (s : σ) : Test σ Unit := fun _ => (Except.ok (), s)

/-- Update the state. -/
def modify {σ : Type} (f : σ → σ) : Test σ Unit := fun s => (Except.ok (), f s)

/-- Whether a result is an abort. -/
def failed {α : Type} : Except String α → Bool
  | Except.ok _ => false
  | Except.error _ => true

end Test

/-! ## Go library functions used by the source -/

namespace strings

/-- Whether the second list starts the first one. -/
def startsWith : List Char → List Char → Bool
  | _, [] => true
  | [], _ :: _ => false
  | c :: cs, d :: ds => c == d && startsWith cs ds

/-- Whether the second list occurs in the first one as a contiguous block. -/
def containsChars : List Char → List Char → Bool
  | [], sub => startsWith [] sub
  | c :: cs, sub => startsWith (c :: cs) sub || containsChars cs sub

/-- Go `strings.Contains(s, substr)`. -/
def Contains (s substr : String) : Bool := containsChars s.data substr.data

/-- Go `strings.Join(elems, sep)`. -/
def Join (elems : List String) (sep : String) : String := sep.intercalate elems

end strings

/-! ## `stager_runner/stager_runner.go` -/

namespace stager_runner

/-- A signal of `syscall`. -/
inductive Signal where
  | SIGTERM
  | SIGKILL
  | SIGINT
  deriving DecidableEq, Repr

/-- A command line handed to `exec.Command`. -/
structure Cmd where
  path : String
  args : List String
  deriving DecidableEq, Repr

/-- The operating system as the runner sees it: the processes launched so far
(a process is identified by its position in `launched`), the processes that
have exited, and the signals that were delivered, oldest first. -/
structure OS where
  launched : List Cmd
  exited : List Nat
  delivered : List (Nat × Signal)
  deriving DecidableEq, Repr

/-- A `*cmdtest.Session`: the handle of one launched process. -/
structure Session where
  pid : Nat
  deriving DecidableEq, Repr

/-- What the outside world decides during one `Start`: whether launching the
binary fails (`cmdtest.StartWrapped` returns an error), and whether the
launched process prints a given pattern within a given number of
milliseconds (the `SayWithTimeout` matcher of `cmdtest`). -/
structure StartEnv where
  startErr : Option String
  saysWithin : String → Nat → Bool

/-- The Go struct `StagerRunner`; a nil `stagerSession` is `none`. -/
structure StagerRunner where
  stagerBin : String
  etcdCluster : List String
  natsAddresses : List String
  stagerSession : Option Session
  CompilerUrl : String
  deriving DecidableEq, Repr

/-- The state a method of the runner works on: the runner behind the pointer
receiver, and the operating system. -/
structure RunnerState where
  r : StagerRunner
  os : OS
  deriving DecidableEq, Repr

/-- Go `New`: the session is nil and `CompilerUrl` is the empty string. -/
def New (stagerBin : String) (etcdCluster : List String) (natsAddresses : List String) :
    StagerRunner :=
  { stagerBin := stagerBin, etcdCluster := etcdCluster, natsAddresses := natsAddresses,
    stagerSession := none, CompilerUrl := "" }

/-- The call `cmdtest.StartWrapped(cmd, ...)`: on success the process is
launched and a session for it is returned. -/
def StartWrapped (env : StartEnv) (cmd : Cmd) : Test RunnerState (Except String Session) :=
  fun s =>
    match env.startErr with
    | some e => (Except.ok (Except.error e), s)
    | none =>
      (Except.ok (Except.ok { pid := s.os.launched.length }),
        { s with os := { s.os with launched := s.os.launched ++ [cmd] } })

/-- The call `Process.Signal(sig)`: a process that has exited gets no signal and the
call returns an error; otherwise the signal is delivered. -/
def ProcessSignal (pid : Nat) (sig : Signal) : Test RunnerState (Option String) := fun s =>
  if pid ∈ s.os.exited then (Except.ok (some "os: process already finished"), s)
  else (Except.ok none, { s with os := { s.os with delivered := s.os.delivered ++ [(pid, sig)] } })

/-- Go `(r *StagerRunner) Start(args ...string)`. -/
def Start (env : StartEnv) (args : List String) : Test RunnerState Unit := do
  let s ← Test.get
  let res ← StartWrapped env
    { path := s.r.stagerBin,
      args := ["-etcdCluster", strings.Join s.r.etcdCluster ",",
               "-natsAddresses", strings.Join s.r.natsAddresses ","] ++ args }
  match res with
  | Except.error e => Test.abort ("Expected error not to have occurred: " ++ e)
  | Except.ok stagerSession =>
    Test.expect (env.saysWithin "Listening for staging requests!" 1000)
      "Expected to say: Listening for staging requests!"
    Test.modify fun s1 => { s1 with r := { s1.r with stagerSession := some stagerSession } }

/-- Go `(r *StagerRunner) Stop()`: the result of `Signal` is dropped. -/
def Stop : Test RunnerState Unit := do
  let s ← Test.get
  match s.r.stagerSession with
  | some session =>
    let _ ← ProcessSignal session.pid Signal.SIGTERM
    pure ()
  | none => pure ()

end stager_runner

/-! ## `helpers/cleanup_garden.go` and `executor/executor_suite_test.go` -/

namespace helpers

/-- A container of the garden server: its handle and the result of `Info()`,
of which the code reads `ContainerPath` only. -/
structure Container where
  handle : String
  info : Except String String

/-- The field `info.ContainerPath` after `info, _ := container.Info()`: the zero
value when `Info` failed. -/
def Container.ContainerPath (c : Container) : String :=
  match c.info with
  | Except.ok path => path
  | Except.error _ => ""

/-- The world of the executor suite as the teardown sees it.

* `containers`: what `gardenClient.Containers(nil)` returns;
* `destroyErr k h`: the error, if any, of the call `gardenClient.Destroy(h)` made
  after `k` earlier calls of `Destroy`;
* `destroyCalls`: the handles `Destroy` was called with, oldest first;
* `GinkgoWriter`: what was written to the Ginkgo writer, oldest first;
* `stopCalls`: the process groups `StopProcesses` was called with, oldest first. -/
structure World where
  containers : Except String (List Container)
  destroyErr : Nat → String → Option String
  destroyCalls : List String
  GinkgoWriter : List String
  stopCalls : List String

/-- The call `fmt.Fprintf(ginkgo.GinkgoWriter, ...)` with the text already formatted. -/
def Fprintf (text : String) : Test World Unit :=
  Test.modify fun w => { w with GinkgoWriter := w.GinkgoWriter ++ [text] }

/-- The call `gardenClient.Destroy(handle)`. -/
def Destroy (handle : String) : Test World (Option String) := fun w =>
  (Except.ok (w.destroyErr w.destroyCalls.length handle),
    { w with destroyCalls := w.destroyCalls ++ [handle] })

/-- The call `helpers.StopProcesses(process)`: only the fact that it was called is
recorded. -/
def StopProcesses (process : String) : Test World Unit :=
  Test.modify fun w => { w with stopCalls := w.stopCalls ++ [process] }

/-- The loop `for _, container := range containers` of `CleanupGarden`, with
`destroyContainerErrors` as accumulator. -/
def destroyLoop : List Container → List String → Test World (List String)
  | [], destroyContainerErrors => pure destroyContainerErrors
  | container :: rest, destroyContainerErrors => do
    Fprintf ("cleaning up container " ++ container.handle ++ " (" ++ container.ContainerPath ++ ")")
    let err ← Destroy container.handle
    match err with
    | some e =>
      if !strings.Contains e "unknown handle" then
        destroyLoop rest (destroyContainerErrors ++ [e])
      else
        destroyLoop rest destroyContainerErrors
    | none => destroyLoop rest destroyContainerErrors

/-- Go `CleanupGarden(gardenClient)`; an error is represented by its message. -/
def CleanupGarden : Test World (List String) := do
  let w ← Test.get
  match w.containers with
  | Except.error e => Test.abort ("Expected error not to have occurred: " ++ e)
  | Except.ok containers =>
    Fprintf ("cleaning up " ++ toString containers.length ++ " Garden containers")
    destroyLoop containers []

/-- The outcomes of the `Destroy` calls of one cleanup, in call order, when `k` calls
of `Destroy` were made before it: the call for the container at position `i` is call
number `k + i`. -/
def destroyOutcomes (destroyErr : Nat → String → Option String) (k : Nat)
    (containers : List Container) : List (Option String) :=
  (containers.enumFrom k).map fun p => destroyErr p.1 p.2.handle

/-- The errors among a list of outcomes whose message does not contain
"unknown handle", in order. -/
def reportedErrors (outcomes : List (Option String)) : List String :=
  outcomes.filterMap fun o => o.filter fun e => !strings.Contains e "unknown handle"

/-- The line `CleanupGarden` writes for one container. -/
def cleanupLine (container : Container) : String :=
  "cleaning up container " ++ container.handle ++ " (" ++ container.ContainerPath ++ ")"

/-- A garden whose three containers are destroyed with a failure, with an
"unknown handle" failure, and with success. -/
def sampleWorld : World :=
  World.mk
    (Except.ok [Container.mk "a" (Except.ok "/depot/a"), Container.mk "b" (Except.error "gone"),
      Container.mk "c" (Except.ok "/depot/c")])
    (fun _ h => if h = "a" then some "boom" else if h = "b" then some "unknown handle: b" else none)
    [] [] []

/-- A garden that does not answer the listing of its containers. -/
def unreachableWorld : World :=
  World.mk (Except.error "connection refused") (fun _ _ => none) [] [] []

end helpers

namespace executor_test

open helpers

/-- The `AfterEach` block of the executor suite. -/
def AfterEach : Test World Unit := do
  let destroyContainerErrors ← CleanupGarden
  StopProcesses "gardenProcess"
  Test.expect destroyContainerErrors.isEmpty
    (toString destroyContainerErrors.length ++ " containers failed to be destroyed!")

end executor_test

/-! ## `cell/evacuation_test.go`: the shim written by `replaceGrootFSWithHangingVersion` -/

namespace cell_test

/-- The part of the file system the shim and its setup touch.

* `files`: the regular files that exist;
* `trace`: the lines appended to `/tmp/image_plugin_trace`, oldest first (a line is
  kept as the argument list it was made of; the time stamp in front is left out);
* `cannotCreate`: the paths at which `touch` leaves no regular file (a directory
  stands there, or the directory cannot be written);
* `cannotRemove`: the paths at which `os.Remove` fails (the file belongs to another
  user of a sticky directory, say). -/
structure FS where
  files : List String
  trace : List (List String)
  cannotCreate : List String
  cannotRemove : List String
  deriving DecidableEq, Repr

/-- The two values `fmt.Fprintf` puts into the script: the Ginkgo parallel node and
the path of the wrapped binary, `filepath.Join(os.Getenv("GROOTFS_BINPATH"), "grootfs")`. -/
structure Shim where
  node : Nat
  path : String
  deriving DecidableEq, Repr

/-- The value of `lock_file` in the script: `/tmp/image_plugin_sleep_%d`. -/
def lock_file (node : Nat) : String := "/tmp/image_plugin_sleep_" ++ toString node

/-- What the outside world decides during the setup: the name and the error of
`ioutil.TempFile`, and the errors of `f.Chmod` and `f.Close`. -/
structure SetupEnv where
  tempName : String
  tempFileErr : Option String
  chmodErr : Option String
  closeErr : Option String

/-- Go `os.Remove(name)` with its result dropped, as line 245 drops it: the file is
removed unless the removal fails. -/
def Remove (name : String) : Test FS Unit :=
  Test.modify fun fs =>
    if fs.cannotRemove.contains name then fs
    else { fs with files := fs.files.filter fun f => f != name }

/-- Go `replaceGrootFSWithHangingVersion()`, up to the restart of garden: the temporary
file is created, the removal of the marker file of this node is attempted (the result
of `os.Remove` is dropped), and the script is written with the node and the path
filled in. -/
def replaceGrootFSWithHangingVersion (env : SetupEnv) (node : Nat) (path : String) :
    Test FS Shim := do
  Test.expectNoError env.tempFileErr
  Test.modify fun fs => { fs with files := env.tempName :: fs.files }
  Test.expectNoError env.chmodErr
  Remove (lock_file node)
  Test.expectNoError env.closeErr
  pure { node := node, path := path }

/-- A blank of the shell: space or tab. -/
def isBlank (c : Char) : Bool := c == Char.ofNat 32 || c == Char.ofNat 9

/-- A character that stands for itself in a word of a shell command: a letter, a digit,
or one of `/ . _ - + : , @ %`. -/
def isPlain (c : Char) : Bool := c.isAlphanum || "/._-+:,@%".data.contains c

/-- The words of a text of plain characters and blanks; `word` holds the characters of
the word being read, last first. -/
def splitWords : List Char → List Char → List String
  | [], word => if word.isEmpty then [] else [String.mk word.reverse]
  | c :: cs, word =>
    if isBlank c then
      if word.isEmpty then splitWords cs [] else String.mk word.reverse :: splitWords cs []
    else splitWords cs (c :: word)

/-- The words bash splits an unquoted text into, when the text holds plain characters
and blanks only; a text with any other character (a quote, `$`, `;`, `*`, a line
break, ...) is not covered. -/
def shellWords (text : String) : Option (List String) :=
  if text.data.all fun c => isPlain c || isBlank c then some (splitWords text.data []) else none

/-- The command line the last line of the script, `%s "$@"` with the path pasted in
unquoted, runs: the first word of the path is the program and the other words come
before the arguments of the invocation.  It is covered when the path splits into
plain words of which the first holds a `/` (bash then runs the file of that name;
a word without `/` goes through the lookup of keywords, functions and builtins). -/
def commandLine (path : String) (args : List String) : Option stager_runner.Cmd :=
  match shellWords path with
  | some (program :: words) =>
    if strings.Contains program "/" then some { path := program, args := words ++ args }
    else none
  | _ => none

/-- The path is one plain word with a `/`: pasted in unquoted, it is the program of the
last line of the script. -/
def plainPath (path : String) : Bool :=
  shellWords path == some [path] && strings.Contains path "/"

/-- The positional parameter `$n` of the script for `n ≥ 1`: the empty string when
fewer than `n` arguments were given. -/
def positional (args : List String) (n : Nat) : String := args.getD (n - 1) ""

/-- The test `"$4" =~ .*healthcheck.*`: the regular expression is not anchored and
`.*` matches every text, so it matches exactly the texts that contain `healthcheck`. -/
def matchesHealthcheck (text : String) : Bool := strings.Contains text "healthcheck"

/-- The first two conjuncts of the condition of the script:
`"x$3" == "xdelete" && ! ( "$4" =~ .*healthcheck.* )`. -/
def faultMatches (args : List String) : Bool :=
  ("x" ++ positional args 3 == "xdelete") && !matchesHealthcheck (positional args 4)

/-- The command of the script an invocation runs next. -/
inductive Pc where
  | echoTrace
  | testCondition
  | touchLock
  | sleep10
  | runWrapped
  | finished
  deriving DecidableEq, Repr

/-- One running invocation of the shim: its arguments `"$@"`, the next command, the
seconds it has slept, the command lines it has run, and its exit status once it has
finished. -/
structure Invocation where
  args : List String
  pc : Pc
  slept : Nat
  ran : List stager_runner.Cmd
  status : Option Nat
  deriving DecidableEq, Repr

/-- An invocation that has not run any command yet. -/
def Invocation.start (args : List String) : Invocation :=
  { args := args, pc := Pc.echoTrace, slept := 0, ran := [], status := none }

/-- The command `touch name` of the script: it creates the regular file unless it is
there already or the file system refuses it. -/
def touch (name : String) (fs : FS) : FS :=
  { fs with files := if fs.files.contains name then fs.files
                     else if fs.cannotCreate.contains name then fs.files
                     else name :: fs.files }

/-- One command of the script, run by one invocation.  `run` gives the exit status of
running a command line, given as its words, the program first.  The test of the
condition reads the file system once (`-f $lock_file`); `touch` creates the marker
unless the file system refuses it.  The last line runs the command line made of the
unquoted path and `"$@"`; when that line is not covered (see `commandLine`) the
invocation ends with nothing recorded as run and without a status. -/
def step (sh : Shim) (run : List String → Nat) (fs : FS) (inv : Invocation) :
    FS × Invocation :=
  match inv.pc with
  | Pc.echoTrace => ({ fs with trace := fs.trace ++ [inv.args] }, { inv with pc := Pc.testCondition })
  | Pc.testCondition =>
    if faultMatches inv.args && !(fs.files.contains (lock_file sh.node)) then
      (fs, { inv with pc := Pc.touchLock })
    else
      (fs, { inv with pc := Pc.runWrapped })
  | Pc.touchLock => (touch (lock_file sh.node) fs, { inv with pc := Pc.sleep10 })
  | Pc.sleep10 => (fs, { inv with pc := Pc.runWrapped, slept := inv.slept + 10 })
  | Pc.runWrapped =>
    match commandLine sh.path inv.args with
    | some cmd =>
      (fs, { inv with pc := Pc.finished,
                      ran := inv.ran ++ [cmd],
                      status := some (run (cmd.path :: cmd.args)) })
    | none => (fs, { inv with pc := Pc.finished })
  | Pc.finished => (fs, inv)

/-- Run up to `n` commands of one invocation. -/
def runSteps (sh : Shim) (run : List String → Nat) : Nat → FS → Invocation → FS × Invocation
  | 0, fs, inv => (fs, inv)
  | n + 1, fs, inv => runSteps sh run n (step sh run fs inv).1 (step sh run fs inv).2

/-- One whole invocation of the shim, run alone: the script has five commands, so five
steps reach its end on every path. -/
def shim (sh : Shim) (run : List String → Nat) (fs : FS) (args : List String) :
    FS × Invocation :=
  runSteps sh run 5 fs (Invocation.start args)

/-- A sequence of invocations of the shim, each run to its end before the next one
starts; the finished invocations are returned in order. -/
def invokeAll (sh : Shim) (run : List String → Nat) :
    FS → List (List String) → FS × List Invocation
  | fs, [] => (fs, [])
  | fs, args :: rest =>
    ((invokeAll sh run (shim sh run fs args).1 rest).1,
      (shim sh run fs args).2 :: (invokeAll sh run (shim sh run fs args).1 rest).2)

/-- Invocations that run at the same time: the scheduler picks the invocation that runs
its next command; a number that names no invocation changes nothing. -/
def runSchedule (sh : Shim) (run : List String → Nat) :
    List Nat → FS × List Invocation → FS × List Invocation
  | [], sys => sys
  | i :: rest, (fs, invs) =>
    match invs[i]? with
    | none => runSchedule sh run rest (fs, invs)
    | some inv =>
      runSchedule sh run rest
        ((step sh run fs inv).1, invs.set i (step sh run fs inv).2)

/-- An invocation in the form of the plugin interface,
`<plugin> <global-flags...> <verb> <args...>`: the arguments the script sees. -/
def pluginArgs (globalFlags : List String) (verb : String) (rest : List String) : List String :=
  globalFlags ++ verb :: rest

end cell_test

namespace cell_test

/-- The seconds each invocation of a sequence sleeps when exactly the first matching
invocation sleeps: 10 for it, 0 for every other one. -/
def oneShotSleeps : List (List String) → List Nat
  | [] => []
  | args :: rest =>
    if faultMatches args then 10 :: rest.map (fun _ => 0) else 0 :: oneShotSleeps rest

/-- A file system without files. -/
def emptyFS : FS := { files := [], trace := [], cannotCreate := [], cannotRemove := [] }

/-- A file system on which the marker of node 1 cannot be created: a directory stands
at its path. -/
def markerRefusedFS : FS :=
  { files := [], trace := [], cannotCreate := ["/tmp/image_plugin_sleep_1"], cannotRemove := [] }

/-- A shim of node 1 around `/var/vcap/packages/grootfs/bin/grootfs`. -/
def sampleShim : Shim := { node := 1, path := "/var/vcap/packages/grootfs/bin/grootfs" }

/-- A setup in which no file operation fails. -/
def sampleSetup : SetupEnv :=
  { tempName := "/tmp/image_plugin123", tempFileErr := none, chmodErr := none, closeErr := none }

/-- Garden deleting the image of a container: two global flag tokens, the verb, the
handle. -/
def deleteArgs (handle : String) : List String := pluginArgs ["--store", "/var/store"] "delete" [handle]

end cell_test

namespace cell_test

/-- The invocation of the shim with arguments `args` at its end, after it has slept
`slept` seconds. -/
def Invocation.atEnd (sh : Shim) (run : List String → Nat) (args : List String) (slept : Nat) :
    Invocation :=
  match commandLine sh.path args with
  | some cmd =>
    { args := args, pc := Pc.finished, slept := slept, ran := [cmd],
      status := some (run (cmd.path :: cmd.args)) }
  | none => { args := args, pc := Pc.finished, slept := slept, ran := [], status := none }

/-- The seconds each invocation of a sequence sleeps, in order, when the invocations
run one after the other. -/
def sleepSeconds (sh : Shim) (run : List String → Nat) (fs : FS)
    (argss : List (List String)) : List Nat :=
  (invokeAll sh run fs argss).2.map Invocation.slept

end cell_test

/-! ## `cell/evacuation_test.go`: the evacuation scenarios -/

namespace cell_test

/-- The fields of `repconfig.RepConfig` the suite sets; durations are in nanoseconds. -/
structure RepConfig where
  CellID : String
  ListenAddr : String
  ListenAddrSecurable : String
  EvacuationTimeout : Nat
  GracefulShutdownInterval : Nat
  deriving DecidableEq, Repr

/-- A `*ginkgomon.Runner` made by `componentMaker.RepN(n, modify)`: the number of the
rep and the configuration it is started with. -/
structure RepRunner where
  n : Nat
  config : RepConfig
  deriving DecidableEq, Repr

/-- `time.Millisecond`, in nanoseconds. -/
def Millisecond : Nat := 1000000

/-- What the goroutine of the second scenario does, in order: the `i`-th call of
`client.StopLRPInstance` (counted from 0), and a sleep. -/
inductive StopLoopEvent where
  | StopLRPInstance (i : Nat)
  | Sleep (nanoseconds : Nat)
  deriving DecidableEq, Repr

/-- The loop `for i := 0; i < 100; i++` of the goroutine, with `remaining` iterations
left before `i` reaches 100: `outcome i` is the error, if any, that the call made
in iteration `i` returns; an error ends the goroutine. -/
def stopLoopFrom (outcome : Nat → Option String) :
    Nat → Nat → Test (List StopLoopEvent) Unit
  | 0, _ => pure ()
  | remaining + 1, i => do
    Test.modify fun log => log ++ [StopLoopEvent.StopLRPInstance i]
    match outcome i with
    | some _ => pure ()
    | none =>
      Test.modify fun log => log ++ [StopLoopEvent.Sleep (100 * Millisecond)]
      stopLoopFrom outcome remaining (i + 1)

/-- The goroutine of `It("shuts down gracefully after the evacuation timeout")`. -/
def stopLoop (outcome : Nat → Option String) : Test (List StopLoopEvent) Unit :=
  stopLoopFrom outcome 100 0

/-- What a scenario does to the outside world, in order; `Background` marks what the
goroutine of the second scenario does. -/
inductive Event where
  | By (text : String)
  | Sleep (nanoseconds : Nat)
  | Post (url : String) (contentType : String)
  | BodyClose
  | RouterProbe
  | ExitCode (runner : RepRunner)
  | CreateClient (addr : String) (secureAddr : String)
  | Go (what : String)
  | Wait (process : String) (timeoutNanoseconds : Nat)
  | Background (e : StopLoopEvent)
  deriving DecidableEq, Repr

/-- Record one event. -/
def emit (e : Event) : Test (List Event) Unit := Test.modify fun log => log ++ [e]

/-- Ginkgo `By(text)`. -/
def By (text : String) : Test (List Event) Unit := emit (Event.By text)

/-- Addition of `uint16` values. -/
def addUint16 (a b : Nat) : Nat := (a + b) % 65536

/-- `http.StatusOK`. -/
def StatusOK : Nat := 200

/-- `http.StatusAccepted`. -/
def StatusAccepted : Nat := 202

/-- `time.Second`, in nanoseconds. -/
def Second : Nat := 1000000000

/-- `models.ActualLRPStateRunning`. -/
def ActualLRPStateRunning : String := "RUNNING"

/-- What the outside world decides during `BeforeEach`: the result of
`ClaimPorts(n)`, the error of `cfhttp.NewTLSConfig`, and the configuration
`componentMaker.RepN(n, ...)` starts from before the suite modifies it. -/
structure SetupWorld where
  ClaimPorts : Nat → Except String Nat
  tlsErr : Option String
  repDefaults : Nat → RepConfig

/-- The call `componentMaker.RepN(n, modify)`. -/
def RepN (world : SetupWorld) (n : Nat) (modify : RepConfig → RepConfig) : RepRunner :=
  { n := n, config := modify (world.repDefaults n) }

/-- The variables of the `Describe` block that the scenarios read. -/
structure Vars where
  cellAID : String
  cellARepAddr : String
  cellARepSecureAddr : String
  cellBID : String
  cellBRepAddr : String
  cellBRepSecureAddr : String
  cellARepRunner : RepRunner
  cellBRepRunner : RepRunner
  cellPortsStart : Nat
  deriving DecidableEq, Repr

/-- The outer `BeforeEach`, for the variables the scenarios read: the cell IDs, the
claimed ports, the four addresses and the two rep runners.  (The restart of the BBS,
the start of the runtime group, the HTTP client and the fixture archive are not part
of the embedding.) -/
def BeforeEach (world : SetupWorld) : Test (List Event) Vars := do
  let cellAID := "cell-a"
  let cellBID := "cell-b"
  let cellPortsStart ← Test.expectOk (world.ClaimPorts 4)
  Test.expectNoError world.tlsErr
  let cellARepAddr := "0.0.0.0:" ++ toString cellPortsStart
  let cellARepSecureAddr := "0.0.0.0:" ++ toString (addUint16 cellPortsStart 1)
  let cellBRepAddr := "0.0.0.0:" ++ toString (addUint16 cellPortsStart 2)
  let cellBRepSecureAddr := "0.0.0.0:" ++ toString (addUint16 cellPortsStart 3)
  let cellARepRunner := RepN world 0 fun config =>
    { config with CellID := cellAID, ListenAddr := cellARepAddr,
                  ListenAddrSecurable := cellARepSecureAddr, EvacuationTimeout := 30 * Second }
  let cellBRepRunner := RepN world 1 fun config =>
    { config with CellID := cellBID, ListenAddr := cellBRepAddr,
                  ListenAddrSecurable := cellBRepSecureAddr, EvacuationTimeout := 30 * Second }
  pure { cellAID := cellAID, cellARepAddr := cellARepAddr,
         cellARepSecureAddr := cellARepSecureAddr,
         cellBID := cellBID, cellBRepAddr := cellBRepAddr,
         cellBRepSecureAddr := cellBRepSecureAddr,
         cellARepRunner := cellARepRunner, cellBRepRunner := cellBRepRunner,
         cellPortsStart := cellPortsStart }

/-- The inner `BeforeEach` of `when garden Destroy hangs`, for the variables (the
replacement of grootfs is `replaceGrootFSWithHangingVersion`): the runner of cell A is
made anew with a graceful shutdown interval of one nanosecond. -/
def hangingBeforeEach (world : SetupWorld) (v : Vars) : Vars :=
  { v with cellARepRunner := RepN world 0 fun config =>
      { config with CellID := v.cellAID, ListenAddr := v.cellARepAddr,
                    ListenAddrSecurable := v.cellARepSecureAddr, GracefulShutdownInterval := 1 } }

/-- One poll of the step `staying routable so long as its rep is alive`: the status
code the router answers with and the value of `ExitCode()` of the evacuating rep. -/
structure Sample where
  status : Nat
  exitCode : Int
  deriving DecidableEq, Repr

/-- What the outside world decides during a scenario.

* `desireLRPErr`: the error of `bbsClient.DesireLRP`;
* `lrpStates`, `routerCodes`: the values of the LRP state poller and of the router
  poller at the successive polls of the two `Eventually` of `running an actual LRP
  instance`;
* `groupErr`: the error of `ActualLRPGroupByProcessGuidAndIndex`;
* `resolve`: the result of `actualLRPGroup.Resolve()`: the cell ID of the placement and
  `isEvacuating`, or an error;
* `post url`: the result of `httpClient.Post(url, "text/html", nil)`: the status code,
  or a transport error;
* `samples`: the polls of `staying routable so long as its rep is alive`;
* `stateAfter`, `routerAfter`: the LRP state right after the rep has exited and the
  router codes during the final `Consistently`;
* `createClientErr`: the error of `factory.CreateClient`;
* `waitReceives`: whether `cellA.Wait()` delivers within 10 seconds;
* `stopOutcome i`: the error, if any, of the call of `client.StopLRPInstance` that the
  goroutine makes in iteration `i`. -/
structure World where
  desireLRPErr : Option String
  lrpStates : List String
  routerCodes : List Nat
  groupErr : Option String
  resolve : Except String (String × Bool)
  post : String → Except String Nat
  samples : List Sample
  stateAfter : String
  routerAfter : List Nat
  createClientErr : Option String
  waitReceives : Bool
  stopOutcome : Nat → Option String

/-- The statements `resp, err := httpClient.Post(...)`, `Expect(err).NotTo(HaveOccurred())`,
`resp.Body.Close()`, `Expect(resp.StatusCode).To(Equal(http.StatusAccepted))`, which both
scenarios run after `By("posting the evacuation endpoint")`. -/
def postEvacuate (world : World) (port : Nat) : Test (List Event) Unit := do
  let url := "https://127.0.0.1:" ++ toString port ++ "/evacuate"
  emit (Event.Post url "text/html")
  let status ← Test.expectOk (world.post url)
  emit Event.BodyClose
  Test.expect (status == StatusAccepted) "Expected status to equal 202"

/-- The function polled by the `Eventually` of `staying routable so long as its rep is
alive`: the router must answer 200, then the exit code of the rep is returned. -/
def routableAndExitCode (evacuatingRepRunner : RepRunner) (sample : Sample) :
    Test (List Event) Int := do
  emit Event.RouterProbe
  Test.expect (sample.status == StatusOK) "Expected status to equal 200"
  emit (Event.ExitCode evacuatingRepRunner)
  pure sample.exitCode

/-- The step `staying routable so long as its rep is alive`:
`Eventually(func() int { ... }).Should(Equal(0))`. -/
def stayingRoutable (evacuatingRepRunner : RepRunner) (samples : List Sample) :
    Test (List Event) Unit :=
  Test.Eventually (routableAndExitCode evacuatingRepRunner) (fun code => code == 0) samples

/-- The statements of `It("handles evacuation")` that follow the `switch` on the cell
ID, with the two variables the `switch` has set. -/
def evacuateAndVerify (world : World) (evacuatingRepRunner : RepRunner)
    (evacuatingRepPort : Nat) : Test (List Event) Unit := do
  By "posting the evacuation endpoint"
  postEvacuate world evacuatingRepPort
  By "staying routable so long as its rep is alive"
  stayingRoutable evacuatingRepRunner world.samples
  By "running immediately after the rep exits and is routable"
  Test.expect (world.stateAfter == ActualLRPStateRunning) "Expected state to equal RUNNING"
  Test.Consistently pure (fun code => code == StatusOK) world.routerAfter

/-- The scenario `It("handles evacuation")`; the `default` case of the `switch`
panics. -/
def handlesEvacuation (v : Vars) (world : World) : Test (List Event) Unit := do
  By "desiring an LRP"
  Test.expectNoError world.desireLRPErr
  By "running an actual LRP instance"
  Test.Eventually pure (fun state => state == ActualLRPStateRunning) world.lrpStates
  Test.Eventually pure (fun code => code == StatusOK) world.routerCodes
  Test.expectNoError world.groupErr
  let (CellId, isEvacuating) ← Test.expectOk world.resolve
  Test.expect (!isEvacuating) "Expected isEvacuating to be false"
  if CellId == v.cellAID then
    evacuateAndVerify world v.cellARepRunner v.cellPortsStart
  else if CellId == v.cellBID then
    evacuateAndVerify world v.cellBRepRunner (addUint16 v.cellPortsStart 2)
  else
    Test.abort "what? who?"

/-- The statement `go func() ...`: the goroutine runs its body; what it
does is recorded, marked as background, at the point where it is started (from there
on the main flow only waits for `cellA`, so how the two interleave is not
represented). -/
def goBackground (body : Test (List StopLoopEvent) Unit) : Test (List Event) Unit :=
  Test.modify fun log => log ++ (body []).2.map Event.Background

/-- The scenario `It("shuts down gracefully after the evacuation timeout")`. -/
def shutsDownGracefully (v : Vars) (world : World) : Test (List Event) Unit := do
  emit (Event.Sleep (60 * Second))
  Test.expectNoError world.desireLRPErr
  By "running an actual LRP instance"
  Test.Eventually pure (fun state => state == ActualLRPStateRunning) world.lrpStates
  By "posting the evacuation endpoint"
  postEvacuate world v.cellPortsStart
  let addr := "https://" ++ v.cellAID ++ ".cell.service.cf.internal:" ++ toString v.cellPortsStart
  let secureAddr := "https://" ++ v.cellAID ++ ".cell.service.cf.internal:" ++
    toString (addUint16 v.cellPortsStart 1)
  emit (Event.CreateClient addr secureAddr)
  Test.expectNoError world.createClientErr
  Test.expectNoError world.groupErr
  emit (Event.Go "StopLRPInstance")
  goBackground (stopLoop world.stopOutcome)
  emit (Event.Wait "cellA" (10 * Second))
  Test.expect world.waitReceives "Timed out waiting for cellA to exit"

end cell_test

namespace cell_test

/-- The events of `n` polls of `staying routable so long as its rep is alive` that pass
the router assertion: a probe of the router and a call of `ExitCode()` each. -/
def pollEvents (evacuatingRepRunner : RepRunner) : Nat → List Event
  | 0 => []
  | n + 1 => Event.RouterProbe :: Event.ExitCode evacuatingRepRunner ::
      pollEvents evacuatingRepRunner n

/-- A rep runner for cell A listening on port 61000. -/
def sampleRunner : RepRunner :=
  RepRunner.mk 0 (RepConfig.mk "cell-a" "0.0.0.0:61000" "0.0.0.0:61001" (30 * Second) 0)

end cell_test

namespace cell_test

/-- The URLs of the `Post` events of a log, in order. -/
def posts (log : List Event) : List String :=
  log.filterMap fun e => match e with
    | Event.Post url _ => some url
    | _ => none

/-- The runners of the `ExitCode` events of a log, in order. -/
def exitCodeRunners (log : List Event) : List RepRunner :=
  log.filterMap fun e => match e with
    | Event.ExitCode r => some r
    | _ => none

/-- The world lets `It("handles evacuation")` reach its `switch` with the workload
placed on the cell `CellId`: every call before it succeeds, both `Eventually` are
satisfied at some poll, and the placement is not evacuating. -/
def placedOn (world : World) (CellId : String) : Prop :=
  world.desireLRPErr = none ∧
  world.lrpStates.any (fun state => state == ActualLRPStateRunning) = true ∧
  world.routerCodes.any (fun code => code == StatusOK) = true ∧
  world.groupErr = none ∧
  world.resolve = Except.ok (CellId, false)

/-- The world lets `It("shuts down gracefully after the evacuation timeout")` reach its
request: the LRP is desired without error and is seen running at some poll. -/
def lrpRunning (world : World) : Prop :=
  world.desireLRPErr = none ∧
  world.lrpStates.any (fun state => state == ActualLRPStateRunning) = true

/-- The URL of the evacuation endpoint of the rep that listens on a port. -/
def evacuateURL (port : Nat) : String := "https://127.0.0.1:" ++ toString port ++ "/evacuate"

/-- A setup in which ports 61000 to 61003 are claimed. -/
def sampleSetupWorld : SetupWorld :=
  SetupWorld.mk (fun _ => Except.ok 61000) none (fun _ => RepConfig.mk "" "" "" 0 0)

/-- The variables `BeforeEach` sets in `sampleSetupWorld`. -/
def sampleVars : Vars :=
  Vars.mk "cell-a" "0.0.0.0:61000" "0.0.0.0:61001" "cell-b" "0.0.0.0:61002" "0.0.0.0:61003"
    (RepRunner.mk 0 (RepConfig.mk "cell-a" "0.0.0.0:61000" "0.0.0.0:61001" (30 * Second) 0))
    (RepRunner.mk 1 (RepConfig.mk "cell-b" "0.0.0.0:61002" "0.0.0.0:61003" (30 * Second) 0))
    61000

/-- A world in which the workload runs on the given cell, the evacuated rep answers the
request with the given status code and exits with code 0 at the second poll. -/
def sampleWorld (CellId : String) (status : Nat) : World :=
  World.mk none ["CLAIMED", "RUNNING"] [404, 200] none (Except.ok (CellId, false))
    (fun _ => Except.ok status) [Sample.mk 200 (-1), Sample.mk 200 0] "RUNNING" [200, 200]
    none true (fun i => if i = 2 then some "connection refused" else none)

/-- A world like `sampleWorld "cell-a" 202` in which the rep client cannot be created. -/
def sampleWorldNoClient : World :=
  { sampleWorld "cell-a" 202 with createClientErr := some "no such host" }

/-- What the goroutine of a log did, in order. -/
def backgroundEvents (log : List Event) : List StopLoopEvent :=
  log.filterMap fun e => match e with
    | Event.Background b => some b
    | _ => none

end cell_test

namespace cell_test

/-- The value the `switch` of `It("handles evacuation")` gives `evacuatingRepPort` for
a cell ID that is one of the two cells. -/
def evacuatingRepPort (v : Vars) (CellId : String) : Nat :=
  if CellId == v.cellAID then v.cellPortsStart else addUint16 v.cellPortsStart 2

/-- The value the `switch` of `It("handles evacuation")` gives `evacuatingRepRunner` for
a cell ID that is one of the two cells. -/
def evacuatingRepRunner (v : Vars) (CellId : String) : RepRunner :=
  if CellId == v.cellAID then v.cellARepRunner else v.cellBRepRunner

/-- The events of `It("handles evacuation")` up to the request. -/
def evacuationLead : List Event :=
  [Event.By "desiring an LRP", Event.By "running an actual LRP instance",
    Event.By "posting the evacuation endpoint"]

/-- The events of `It("shuts down gracefully after the evacuation timeout")` up to the
request. -/
def shutdownLead : List Event :=
  [Event.Sleep (60 * Second), Event.By "running an actual LRP instance",
    Event.By "posting the evacuation endpoint"]

/-- The first argument of `factory.CreateClient` in the second scenario. -/
def clientAddr (v : Vars) : String :=
  "https://" ++ v.cellAID ++ ".cell.service.cf.internal:" ++ toString v.cellPortsStart

/-- The second argument of `factory.CreateClient` in the second scenario. -/
def clientSecureAddr (v : Vars) : String :=
  "https://" ++ v.cellAID ++ ".cell.service.cf.internal:" ++
    toString (addUint16 v.cellPortsStart 1)

end cell_test

/-! ## Sequences of calls on a stager runner -/

namespace stager_runner

/-- What can happen to a runner and its processes: a call of `Start` (with what the
outside world decides during it), a call of `Stop`, and the exit of a process. -/
inductive Call where
  | Start (env : StartEnv) (args : List String)
  | Stop
  | Exit (pid : Nat)

/-- The state after one call; the result of the call is dropped, as a test that goes
on after a failed `Start` (in its teardown) drops it. -/
def Call.apply : Call → RunnerState → RunnerState
  | Call.Start env args, s => (stager_runner.Start env args s).2
  | Call.Stop, s => (stager_runner.Stop s).2
  | Call.Exit pid, s => { s with os := { s.os with exited := pid :: s.os.exited } }

/-- The state after a sequence of calls, first call first. -/
def runCalls : List Call → RunnerState → RunnerState
  | [], s => s
  | c :: rest, s => runCalls rest (c.apply s)

/-- The command line `Start` hands to `exec.Command` for a runner and caller
arguments. -/
def startCommand (r : StagerRunner) (args : List String) : Cmd :=
  { path := r.stagerBin,
    args := ["-etcdCluster", strings.Join r.etcdCluster ",",
             "-natsAddresses", strings.Join r.natsAddresses ","] ++ args }

/-- The session of a runner, if any, names a launched process: the call
`r.stagerSession.Cmd.Process.Signal` of `Stop` finds a session and a process. -/
def sessionLaunched (s : RunnerState) : Prop :=
  ∀ session, s.r.stagerSession = some session → session.pid < s.os.launched.length

/-- An operating system on which nothing was launched. -/
def freshOS : OS := { launched := [], exited := [], delivered := [] }

/-- A stager that prints its readiness line in time. -/
def readyEnv : StartEnv := { startErr := none, saysWithin := fun _ _ => true }

end stager_runner

/-! ## `cell/evacuation_test.go`: the listen ports and the loop of stop requests -/

namespace cell_test

/-- The four ports `BeforeEach` formats into the listen addresses of the two cells:
`cellPortsStart`, `cellPortsStart+1`, `cellPortsStart+2`, `cellPortsStart+3` in `uint16`
arithmetic. -/
def listenPorts (cellPortsStart : Nat) : List Nat :=
  [cellPortsStart, addUint16 cellPortsStart 1, addUint16 cellPortsStart 2,
    addUint16 cellPortsStart 3]

/-- The numbers of the stop requests of a log, in order. -/
def stopRequests (log : List StopLoopEvent) : List Nat :=
  log.filterMap fun e => match e with
    | StopLoopEvent.StopLRPInstance i => some i
    | _ => none

/-- The number of requests the loop issues with `remaining` iterations left from
iteration `i` on: it counts up to and including the first request that fails. -/
def issued (outcome : Nat → Option String) : Nat → Nat → Nat
  | 0, _ => 0
  | remaining + 1, i =>
    match outcome i with
    | some _ => 1
    | none => 1 + issued outcome remaining (i + 1)

end cell_test

/-! ## Lemmas on test blocks -/

namespace Test

theorem bind_apply {σ α β : Type} (m : Test σ α) (f : α → Test σ β) (s : σ) :
    (m >>= f) s = match m s with
      | (Except.ok a, s1) => f a s1
      | (Except.error e, s1) => (Except.error e, s1) := rfl

theorem pure_apply {σ α : Type} (a : α) (s : σ) :
    (pure a : Test σ α) s = (Except.ok a, s) := rfl

theorem bind_ok {σ α β : Type} (m : Test σ α) (f : α → Test σ β) (s s1 : σ) (a : α)
    (h : m s = (Except.ok a, s1)) : (m >>= f) s = f a s1 := by
  rw [bind_apply, h]

theorem bind_error {σ α β : Type} (m : Test σ α) (f : α → Test σ β) (s s1 : σ) (e : String)
    (h : m s = (Except.error e, s1)) : (m >>= f) s = (Except.error e, s1) := by
  rw [bind_apply, h]

end Test

/-! ## The stager runner: a start that times out -/

namespace stager_runner

theorem Start_timeout (env : StartEnv) (args : List String) (s : RunnerState)
    (hstart : env.startErr = none)
    (hsay : env.saysWithin "Listening for staging requests!" 1000 = false) :
    Start env args s =
      (Except.error "Expected to say: Listening for staging requests!",
        { s with os := { s.os with launched := s.os.launched ++
            [{ path := s.r.stagerBin,
               args := ["-etcdCluster", strings.Join s.r.etcdCluster ",",
                        "-natsAddresses", strings.Join s.r.natsAddresses ","] ++ args }] } }) := by
  simp [Start, StartWrapped, Test.bind_apply, Test.get, Test.expect, hstart, hsay]

theorem Stop_without_session (s : RunnerState) (h : s.r.stagerSession = none) :
    Stop s = (Except.ok (), s) := by
  simp [Stop, Test.bind_apply, Test.get, h, Test.pure_apply]

end stager_runner

/-- C1 (the code departs from the claim): when the launched process does not print
"Listening for staging requests!" within the timeout, `Start` on a runner built by
`New` fails after launching the process, records no session, and delivers no signal;
a following `Stop` then finds no session and changes nothing, so no termination
signal is ever delivered to the launched process and it is not marked as exited. -/
theorem C1_start_timeout_leaves_process_running (env : stager_runner.StartEnv)
    (stagerBin : String) (etcdCluster natsAddresses args : List String) (os : stager_runner.OS)
    (hstart : env.startErr = none)
    (hsay : env.saysWithin "Listening for staging requests!" 1000 = false) :
    Test.failed (stager_runner.Start env args
        { r := stager_runner.New stagerBin etcdCluster natsAddresses, os := os }).1 = true ∧
    (stager_runner.Start env args
        { r := stager_runner.New stagerBin etcdCluster natsAddresses, os := os }).2.os.launched =
      os.launched ++ [{ path := stagerBin,
                        args := ["-etcdCluster", strings.Join etcdCluster ",",
                                 "-natsAddresses", strings.Join natsAddresses ","] ++ args }] ∧
    (stager_runner.Stop (stager_runner.Start env args
        { r := stager_runner.New stagerBin etcdCluster natsAddresses, os := os }).2).2.os.delivered =
      os.delivered ∧
    (stager_runner.Stop (stager_runner.Start env args
        { r := stager_runner.New stagerBin etcdCluster natsAddresses, os := os }).2).2.os.exited =
      os.exited ∧
    (stager_runner.Stop (stager_runner.Start env args
        { r := stager_runner.New stagerBin etcdCluster natsAddresses, os := os }).2).2.r.stagerSession =
      none := by
  rw [stager_runner.Start_timeout env args _ hstart hsay]
  rw [stager_runner.Stop_without_session _ rfl]
  simp [Test.failed, stager_runner.New]

/-- C1, at a concrete input: the stager binary is launched on an empty system, stays
silent, and after the failed `Start` and a `Stop` the process list holds it while
the list of delivered signals is empty. -/
theorem C1_start_timeout_leaves_process_running_witness :
    Test.failed (stager_runner.Start { startErr := none, saysWithin := fun _ _ => false } ["-x"]
        { r := stager_runner.New "stager" ["e1", "e2"] ["n1"],
          os := { launched := [], exited := [], delivered := [] } }).1 = true ∧
    (stager_runner.Start { startErr := none, saysWithin := fun _ _ => false } ["-x"]
        { r := stager_runner.New "stager" ["e1", "e2"] ["n1"],
          os := { launched := [], exited := [], delivered := [] } }).2.os.launched =
      [] ++ [{ path := "stager",
               args := ["-etcdCluster", strings.Join ["e1", "e2"] ",",
                        "-natsAddresses", strings.Join ["n1"] ","] ++ ["-x"] }] ∧
    (stager_runner.Stop (stager_runner.Start { startErr := none, saysWithin := fun _ _ => false } ["-x"]
        { r := stager_runner.New "stager" ["e1", "e2"] ["n1"],
          os := { launched := [], exited := [], delivered := [] } }).2).2.os.delivered = [] ∧
    (stager_runner.Stop (stager_runner.Start { startErr := none, saysWithin := fun _ _ => false } ["-x"]
        { r := stager_runner.New "stager" ["e1", "e2"] ["n1"],
          os := { launched := [], exited := [], delivered := [] } }).2).2.os.exited = [] ∧
    (stager_runner.Stop (stager_runner.Start { startErr := none, saysWithin := fun _ _ => false } ["-x"]
        { r := stager_runner.New "stager" ["e1", "e2"] ["n1"],
          os := { launched := [], exited := [], delivered := [] } }).2).2.r.stagerSession = none :=
  C1_start_timeout_leaves_process_running { startErr := none, saysWithin := fun _ _ => false }
    "stager" ["e1", "e2"] ["n1"] ["-x"] { launched := [], exited := [], delivered := [] } rfl rfl

/-! ## The teardown of the executor suite -/

namespace helpers

theorem destroyLoop_eq (containers : List Container) (acc : List String) (w : World) :
    destroyLoop containers acc w =
      (Except.ok (acc ++ reportedErrors (destroyOutcomes w.destroyErr w.destroyCalls.length containers)),
        { w with destroyCalls := w.destroyCalls ++ containers.map Container.handle,
                 GinkgoWriter := w.GinkgoWriter ++ containers.map cleanupLine }) := by
  induction containers generalizing acc w with
  | nil => simp [destroyLoop, Test.pure_apply, reportedErrors, destroyOutcomes]
  | cons c cs ih =>
    have hstep : destroyLoop (c :: cs) acc w =
        destroyLoop cs
          (match w.destroyErr w.destroyCalls.length c.handle with
            | some e => if !strings.Contains e "unknown handle" then acc ++ [e] else acc
            | none => acc)
          { w with destroyCalls := w.destroyCalls ++ [c.handle],
                   GinkgoWriter := w.GinkgoWriter ++ [cleanupLine c] } := by
      simp only [destroyLoop, Test.bind_apply, Fprintf, Test.modify, Destroy, cleanupLine]
      cases hd : w.destroyErr w.destroyCalls.length c.handle with
      | none => rfl
      | some e => cases hc : strings.Contains e "unknown handle" <;> simp [hc]
    rw [hstep, ih]
    cases hd : w.destroyErr w.destroyCalls.length c.handle with
    | none =>
      simp [reportedErrors, destroyOutcomes, List.enumFrom, hd, Option.filter]
    | some e =>
      cases hc : strings.Contains e "unknown handle" <;>
        simp [reportedErrors, destroyOutcomes, List.enumFrom, hd, Option.filter, hc]

theorem CleanupGarden_listed (w : World) (containers : List Container)
    (h : w.containers = Except.ok containers) :
    CleanupGarden w =
      (Except.ok (reportedErrors (destroyOutcomes w.destroyErr w.destroyCalls.length containers)),
        { w with destroyCalls := w.destroyCalls ++ containers.map Container.handle,
                 GinkgoWriter := w.GinkgoWriter ++
                   ("cleaning up " ++ toString containers.length ++ " Garden containers") ::
                     containers.map cleanupLine }) := by
  simp [CleanupGarden, Test.bind_apply, Test.get, h, Fprintf, Test.modify, destroyLoop_eq]

theorem CleanupGarden_list_failed (w : World) (e : String) (h : w.containers = Except.error e) :
    CleanupGarden w = (Except.error ("Expected error not to have occurred: " ++ e), w) := by
  simp [CleanupGarden, Test.bind_apply, Test.get, h, Test.abort]

theorem reportedErrors_eq_nil (outcomes : List (Option String)) :
    reportedErrors outcomes = [] ↔
      ∀ o ∈ outcomes, o = none ∨ ∃ e, o = some e ∧ strings.Contains e "unknown handle" = true := by
  unfold reportedErrors
  rw [List.filterMap_eq_nil_iff]
  refine forall₂_congr fun o _ => ?_
  cases o with
  | none => simp [Option.filter]
  | some e => cases hc : strings.Contains e "unknown handle" <;> simp [Option.filter, hc]

theorem destroyOutcomes_length (destroyErr : Nat → String → Option String) (k : Nat)
    (containers : List Container) :
    (destroyOutcomes destroyErr k containers).length = containers.length := by
  simp [destroyOutcomes]

theorem destroyOutcomes_get (destroyErr : Nat → String → Option String) (k : Nat)
    (containers : List Container) (i : Nat) (hi : i < containers.length) :
    (destroyOutcomes destroyErr k containers)[i]? =
      some (destroyErr (k + i) (containers.get ⟨i, hi⟩).handle) := by
  simp [destroyOutcomes, List.getElem?_map, List.getElem?_enumFrom, List.getElem?_eq_getElem hi]

end helpers

namespace executor_test

open helpers

theorem AfterEach_listed (w : World) (containers : List Container)
    (h : w.containers = Except.ok containers) :
    (AfterEach w).2 =
      { w with destroyCalls := w.destroyCalls ++ containers.map Container.handle,
               GinkgoWriter := w.GinkgoWriter ++
                 ("cleaning up " ++ toString containers.length ++ " Garden containers") ::
                   containers.map cleanupLine,
               stopCalls := w.stopCalls ++ ["gardenProcess"] } := by
  simp only [AfterEach, Test.bind_apply, CleanupGarden_listed w containers h, StopProcesses,
    Test.modify, Test.expect]
  split <;> rfl

end executor_test

/-- Whenever the listing of the containers succeeds, the `AfterEach` block calls
`StopProcesses(gardenProcess)` exactly once and `Destroy` once per listed container,
whatever the outcomes of the `Destroy` calls are. -/
theorem AfterEach_stops_when_listing_succeeds (w : helpers.World)
    (containers : List helpers.Container) (h : w.containers = Except.ok containers) :
    (executor_test.AfterEach w).2.stopCalls = w.stopCalls ++ ["gardenProcess"] ∧
    (executor_test.AfterEach w).2.destroyCalls =
      w.destroyCalls ++ containers.map helpers.Container.handle := by
  rw [executor_test.AfterEach_listed w containers h]
  exact ⟨rfl, rfl⟩

/-- C2 (the code departs from the claim): when the garden does not answer the listing
of its containers, the assertion inside `CleanupGarden` aborts the `AfterEach` block
and `StopProcesses` is not called; at a garden that lists its containers and fails to
destroy one of them, the block fails as well but `StopProcesses` was called. -/
theorem C2_list_failure_skips_stop :
    Test.failed (helpers.CleanupGarden helpers.unreachableWorld).1 = true ∧
    Test.failed (executor_test.AfterEach helpers.unreachableWorld).1 = true ∧
    (executor_test.AfterEach helpers.unreachableWorld).2.stopCalls = [] ∧
    Test.failed (executor_test.AfterEach helpers.sampleWorld).1 = true ∧
    (executor_test.AfterEach helpers.sampleWorld).2.stopCalls = ["gardenProcess"] := by
  refine ⟨?_, ?_, ?_, by decide, by decide⟩
  · rw [helpers.CleanupGarden_list_failed helpers.unreachableWorld "connection refused" rfl]; rfl
  · simp only [executor_test.AfterEach, Test.bind_apply,
      helpers.CleanupGarden_list_failed helpers.unreachableWorld "connection refused" rfl]; rfl
  · simp only [executor_test.AfterEach, Test.bind_apply,
      helpers.CleanupGarden_list_failed helpers.unreachableWorld "connection refused" rfl]; rfl

/-- C3: when the garden client lists `containers`, `CleanupGarden` calls `Destroy`
once for each listed container in list order, whatever the earlier calls returned,
and returns, in container order, exactly the `Destroy` errors whose message does not
contain "unknown handle"; it returns the empty list if and only if every `Destroy`
succeeded or failed with an "unknown handle" error.  The outcome at position `i` is
the one of the call `Destroy(containers[i].handle)`. -/
theorem C3_CleanupGarden_destroys_each_reports_rest (w : helpers.World)
    (containers : List helpers.Container) (h : w.containers = Except.ok containers) :
    (helpers.CleanupGarden w).1 =
      Except.ok (helpers.reportedErrors
        (helpers.destroyOutcomes w.destroyErr w.destroyCalls.length containers)) ∧
    (helpers.CleanupGarden w).2.destroyCalls =
      w.destroyCalls ++ containers.map helpers.Container.handle ∧
    (∀ (i : Nat) (hi : i < containers.length),
      (helpers.destroyOutcomes w.destroyErr w.destroyCalls.length containers)[i]? =
        some (w.destroyErr (w.destroyCalls.length + i) (containers.get ⟨i, hi⟩).handle)) ∧
    ((helpers.CleanupGarden w).1 = Except.ok [] ↔
      ∀ o ∈ helpers.destroyOutcomes w.destroyErr w.destroyCalls.length containers,
        o = none ∨ ∃ e, o = some e ∧ strings.Contains e "unknown handle" = true) := by
  rw [helpers.CleanupGarden_listed w containers h]
  refine ⟨rfl, rfl, fun i hi => helpers.destroyOutcomes_get _ _ _ i hi, ?_⟩
  rw [← helpers.reportedErrors_eq_nil]
  constructor
  · intro hk
    exact Except.ok.inj hk
  · intro hk
    show Except.ok _ = Except.ok _
    rw [hk]

/-- C3, at a garden with three containers whose `Destroy` calls fail, fail with
"unknown handle", and succeed: all three are destroyed in order and the one error
that is not an "unknown handle" error is returned. -/
theorem C3_CleanupGarden_destroys_each_reports_rest_witness :
    (helpers.CleanupGarden helpers.sampleWorld).1 = Except.ok ["boom"] ∧
    (helpers.CleanupGarden helpers.sampleWorld).2.destroyCalls = ["a", "b", "c"] ∧
    ((helpers.CleanupGarden helpers.sampleWorld).1 = Except.ok [] ↔
      ∀ o ∈ helpers.destroyOutcomes helpers.sampleWorld.destroyErr
          helpers.sampleWorld.destroyCalls.length
          [helpers.Container.mk "a" (Except.ok "/depot/a"),
            helpers.Container.mk "b" (Except.error "gone"),
            helpers.Container.mk "c" (Except.ok "/depot/c")],
        o = none ∨ ∃ e, o = some e ∧ strings.Contains e "unknown handle" = true) := by
  have hw := C3_CleanupGarden_destroys_each_reports_rest helpers.sampleWorld _ rfl
  refine ⟨?_, ?_, hw.2.2.2⟩
  · rw [hw.1]; exact congrArg Except.ok (by decide)
  · rw [hw.2.1]; decide

/-! ## The shim -/

namespace cell_test

theorem shim_eq (sh : Shim) (run : List String → Nat) (fs : FS) (args : List String) :
    shim sh run fs args =
      if faultMatches args && !(fs.files.contains (lock_file sh.node)) then
        (touch (lock_file sh.node) { fs with trace := fs.trace ++ [args] },
          Invocation.atEnd sh run args 10)
      else
        ({ fs with trace := fs.trace ++ [args] }, Invocation.atEnd sh run args 0) := by
  cases hcmd : commandLine sh.path args with
  | none =>
    cases hm : faultMatches args with
    | false => simp [shim, runSteps, step, Invocation.start, Invocation.atEnd, hm, hcmd]
    | true =>
      by_cases hl : lock_file sh.node ∈ fs.files
      · simp [shim, runSteps, step, Invocation.start, Invocation.atEnd, hm, hl, hcmd]
      · simp [shim, runSteps, step, Invocation.start, Invocation.atEnd, hm, hl, hcmd]
  | some cmd =>
    cases hm : faultMatches args with
    | false => simp [shim, runSteps, step, Invocation.start, Invocation.atEnd, hm, hcmd]
    | true =>
      by_cases hl : lock_file sh.node ∈ fs.files
      · simp [shim, runSteps, step, Invocation.start, Invocation.atEnd, hm, hl, hcmd]
      · simp [shim, runSteps, step, Invocation.start, Invocation.atEnd, hm, hl, hcmd]

/-- Scheduling one invocation alone for `n` steps is running `n` of its commands. -/
theorem runSchedule_alone (sh : Shim) (run : List String → Nat) (n : Nat) (fs : FS)
    (inv : Invocation) :
    runSchedule sh run (List.replicate n 0) (fs, [inv]) =
      ((runSteps sh run n fs inv).1, [(runSteps sh run n fs inv).2]) := by
  induction n generalizing fs inv with
  | zero => rfl
  | succ n ih => simp [List.replicate, runSchedule, runSteps, ih]

theorem invokeAll_length (sh : Shim) (run : List String → Nat) (fs : FS)
    (argss : List (List String)) : (invokeAll sh run fs argss).2.length = argss.length := by
  induction argss generalizing fs with
  | nil => rfl
  | cons a rest ih => simp [invokeAll, ih]

theorem atEnd_slept (sh : Shim) (run : List String → Nat) (args : List String) (n : Nat) :
    (Invocation.atEnd sh run args n).slept = n := by
  unfold Invocation.atEnd
  split <;> rfl

theorem atEnd_pc (sh : Shim) (run : List String → Nat) (args : List String) (n : Nat) :
    (Invocation.atEnd sh run args n).pc = Pc.finished := by
  unfold Invocation.atEnd
  split <;> rfl

theorem shim_sleeps (sh : Shim) (run : List String → Nat) (fs : FS) (args : List String)
    (hm : faultMatches args = true) (hl : lock_file sh.node ∉ fs.files) :
    shim sh run fs args =
      (touch (lock_file sh.node) { fs with trace := fs.trace ++ [args] },
        Invocation.atEnd sh run args 10) := by
  rw [shim_eq]; simp [hm, hl]

theorem shim_passes (sh : Shim) (run : List String → Nat) (fs : FS) (args : List String)
    (h : faultMatches args = false ∨ lock_file sh.node ∈ fs.files) :
    shim sh run fs args =
      ({ fs with trace := fs.trace ++ [args] }, Invocation.atEnd sh run args 0) := by
  rw [shim_eq]
  rcases h with h | h <;> simp [h]

theorem touch_creates (name : String) (fs : FS) (h : name ∉ fs.cannotCreate) :
    name ∈ (touch name fs).files := by
  by_cases hf : name ∈ fs.files
  · simp [touch, hf]
  · simp [touch, hf, h]

theorem touch_refused (name : String) (fs : FS) (h : name ∈ fs.cannotCreate) :
    (touch name fs).files = fs.files := by
  by_cases hf : name ∈ fs.files
  · simp [touch, hf]
  · simp [touch, hf, h]

theorem invokeAll_marked (sh : Shim) (run : List String → Nat) (fs : FS)
    (argss : List (List String)) (h : lock_file sh.node ∈ fs.files) :
    (invokeAll sh run fs argss).2.map Invocation.slept = argss.map fun _ => 0 := by
  induction argss generalizing fs with
  | nil => rfl
  | cons a rest ih =>
    simp only [invokeAll, shim_passes sh run fs a (Or.inr h), List.map_cons, atEnd_slept]
    rw [ih { fs with trace := fs.trace ++ [a] } h]

theorem invokeAll_unmarked (sh : Shim) (run : List String → Nat) (fs : FS)
    (argss : List (List String)) (h : lock_file sh.node ∉ fs.files)
    (hc : lock_file sh.node ∉ fs.cannotCreate) :
    (invokeAll sh run fs argss).2.map Invocation.slept = oneShotSleeps argss := by
  induction argss generalizing fs with
  | nil => rfl
  | cons a rest ih =>
    cases hm : faultMatches a with
    | false =>
      simp only [invokeAll, shim_passes sh run fs a (Or.inl hm), List.map_cons, oneShotSleeps, hm,
        atEnd_slept]
      rw [ih { fs with trace := fs.trace ++ [a] } h hc]
      simp
    | true =>
      simp only [invokeAll, shim_sleeps sh run fs a hm h, List.map_cons, oneShotSleeps, hm,
        atEnd_slept]
      rw [invokeAll_marked sh run (touch (lock_file sh.node) { fs with trace := fs.trace ++ [a] })
        rest (touch_creates _ _ hc)]
      simp

end cell_test

namespace cell_test

theorem oneShotSleeps_length (argss : List (List String)) :
    (oneShotSleeps argss).length = argss.length := by
  induction argss with
  | nil => rfl
  | cons a rest ih =>
    cases hm : faultMatches a <;> simp [oneShotSleeps, hm, ih]

theorem getD_map_zero (rest : List (List String)) (i : Nat) :
    (rest.map fun _ => 0).getD i 0 = 0 := by
  induction rest generalizing i with
  | nil => simp
  | cons a rest ih =>
    cases i with
    | zero => simp
    | succ i => simp

theorem oneShotSleeps_values (argss : List (List String)) (i : Nat) :
    (oneShotSleeps argss).getD i 0 = 10 ∨ (oneShotSleeps argss).getD i 0 = 0 := by
  induction argss generalizing i with
  | nil => right; simp [oneShotSleeps]
  | cons a rest ih =>
    cases hm : faultMatches a with
    | false =>
      cases i with
      | zero => right; simp [oneShotSleeps, hm]
      | succ i => simpa [oneShotSleeps, hm] using ih i
    | true =>
      cases i with
      | zero => left; simp [oneShotSleeps, hm]
      | succ i =>
        right
        simp [oneShotSleeps, hm]

theorem oneShotSleeps_first (argss : List (List String)) (i : Nat) (hi : i < argss.length) :
    (oneShotSleeps argss).getD i 0 = 10 ↔
      faultMatches (argss.getD i []) = true ∧
        ∀ j, j < i → faultMatches (argss.getD j []) = false := by
  induction argss generalizing i with
  | nil => simp at hi
  | cons a rest ih =>
    cases hm : faultMatches a with
    | false =>
      cases i with
      | zero => simp [oneShotSleeps, hm]
      | succ i =>
        have hi1 : i < rest.length := by simpa using hi
        have h := ih i hi1
        simp only [oneShotSleeps, hm, Bool.false_eq_true, if_false, List.getD_cons_succ]
        rw [h]
        constructor
        · rintro ⟨h1, h2⟩
          refine ⟨h1, fun j hj => ?_⟩
          cases j with
          | zero => simpa using hm
          | succ j => simpa using h2 j (by omega)
        · rintro ⟨h1, h2⟩
          refine ⟨h1, fun j hj => ?_⟩
          simpa using h2 (j + 1) (by omega)
    | true =>
      cases i with
      | zero => simp [oneShotSleeps, hm]
      | succ i =>
        have hz := getD_map_zero rest i
        simp only [oneShotSleeps, hm, if_true, List.getD_cons_succ, hz]
        constructor
        · intro h; omega
        · rintro ⟨_, h2⟩
          have := h2 0 (by omega)
          simp [hm] at this

theorem oneShotSleeps_count (argss : List (List String)) :
    ((oneShotSleeps argss).filter fun n => n != 0).length ≤ 1 := by
  induction argss with
  | nil => simp [oneShotSleeps]
  | cons a rest ih =>
    cases hm : faultMatches a with
    | false => simpa [oneShotSleeps, hm] using ih
    | true =>
      have hz : ((rest.map fun _ => 0).filter fun n => n != 0) = [] := by
        simp [List.filter_eq_nil_iff]
      simp [oneShotSleeps, hm, List.filter_cons, hz]

theorem Remove_removes (name : String) (fs : FS) (h : name ∉ fs.cannotRemove) :
    name ∉ (Remove name fs).2.files := by
  simp [Remove, Test.modify, h]

theorem setup_removes_marker (env : SetupEnv) (node : Nat) (path : String) (fs0 fs : FS)
    (sh : Shim)
    (h : replaceGrootFSWithHangingVersion env node path fs0 = (Except.ok sh, fs))
    (hremove : lock_file node ∉ fs0.cannotRemove) :
    sh = { node := node, path := path } ∧ lock_file node ∉ fs.files ∧
      fs.cannotCreate = fs0.cannotCreate := by
  simp only [replaceGrootFSWithHangingVersion, Test.bind_apply, Test.expectNoError, Test.modify,
    Test.pure_apply, Test.abort, Remove] at h
  cases h1 : env.tempFileErr <;> cases h2 : env.chmodErr <;> cases h3 : env.closeErr <;>
    simp [h1, h2, h3, Test.pure_apply, Test.abort, Test.ret, hremove] at h
  obtain ⟨hsh, hfs⟩ := h
  subst hsh hfs
  simp

theorem x_delete (text : String) : ("x" ++ text == "xdelete") = (text == "delete") := by
  have h : ("x" ++ text = "xdelete") ↔ (text = "delete") := by
    constructor
    · intro h
      have hd := congrArg String.data h
      rw [String.data_append] at hd
      exact String.ext (List.cons.inj hd).2
    · intro h
      rw [h]
      rfl
  by_cases ht : text = "delete"
  · simp [ht, h.mpr ht]
  · have hx : ¬ ("x" ++ text = "xdelete") := fun hx => ht (h.mp hx)
    simp [ht, hx]

theorem faultMatches_two_flags (flag1 flag2 verb : String) (rest : List String) :
    faultMatches (pluginArgs [flag1, flag2] verb rest) =
      ((verb == "delete") && !strings.Contains (rest.headD "") "healthcheck") := by
  have h3 : positional (pluginArgs [flag1, flag2] verb rest) 3 = verb := rfl
  have h4 : positional (pluginArgs [flag1, flag2] verb rest) 4 = rest.headD "" := by
    cases rest <;> rfl
  simp only [faultMatches, h3, h4, x_delete, matchesHealthcheck]

theorem faultMatches_two_flags_iff (flag1 flag2 verb : String) (rest : List String) :
    faultMatches (pluginArgs [flag1, flag2] verb rest) = true ↔
      verb = "delete" ∧ ∀ a, rest.head? = some a → strings.Contains a "healthcheck" = false := by
  have hhead : (∀ a, rest.head? = some a → strings.Contains a "healthcheck" = false) ↔
      strings.Contains (rest.headD "") "healthcheck" = false := by
    cases rest with
    | nil => simp; decide
    | cons a rest => simp
  rw [hhead, faultMatches_two_flags]
  simp

theorem commandLine_plain (path : String) (args : List String) (h : plainPath path = true) :
    commandLine path args = some { path := path, args := args } := by
  simp only [plainPath, Bool.and_eq_true, beq_iff_eq] at h
  simp [commandLine, h.1, h.2]

/-- A path with a blank, pasted in unquoted, makes the last line of the script run the
text before the blank. -/
theorem commandLine_blank :
    commandLine "/opt/my tools/bin/grootfs" ["--store", "/var/store", "delete", "c1"] =
      some { path := "/opt/my",
             args := ["tools/bin/grootfs", "--store", "/var/store", "delete", "c1"] } := by
  decide

end cell_test

/-- C4 (the code departs from the claim): two matching invocations of the shim run at
the same time, and both test the condition before either creates the marker
(schedule: trace and test of the first, trace and test of the second, then the rest
of each).  Both find the marker absent, both create it, and both sleep 10 seconds. -/
theorem C4_racing_invocations_both_sleep :
    (cell_test.runSchedule cell_test.sampleShim (fun _ => 0) [0, 0, 1, 1, 0, 0, 0, 1, 1, 1]
        (cell_test.emptyFS,
          [cell_test.Invocation.start (cell_test.deleteArgs "c1"),
           cell_test.Invocation.start (cell_test.deleteArgs "c2")])).2.map
        (fun inv => (inv.pc, inv.slept)) =
      [(cell_test.Pc.finished, 10), (cell_test.Pc.finished, 10)] ∧
    cell_test.faultMatches (cell_test.deleteArgs "c1") = true ∧
    cell_test.faultMatches (cell_test.deleteArgs "c2") = true := by
  decide

/-- C5 (counterexample): the marker is absent and the invocations run one after the
other.  With four global flag tokens in front, the first delete of a container that
is not a health-check container does not sleep, and the delete after it does: the
script tests its third and fourth argument.  And on a file system that refuses to
create the marker, two deletes in the form the script expects both sleep. -/
theorem C5_first_delete_need_not_sleep :
    cell_test.sleepSeconds cell_test.sampleShim (fun _ => 0) cell_test.emptyFS
        [cell_test.pluginArgs ["--log-level", "debug", "--store", "/var/store"] "delete" ["c1"],
          cell_test.pluginArgs ["--store", "/var/store"] "delete" ["c2"]] = [0, 10] ∧
    strings.Contains "c1" "healthcheck" = false ∧
    strings.Contains "c2" "healthcheck" = false ∧
    cell_test.lock_file cell_test.sampleShim.node ∉ cell_test.emptyFS.files ∧
    cell_test.sleepSeconds cell_test.sampleShim (fun _ => 0) cell_test.markerRefusedFS
        [cell_test.deleteArgs "c1", cell_test.deleteArgs "c2"] = [10, 10] ∧
    cell_test.lock_file cell_test.sampleShim.node ∉ cell_test.markerRefusedFS.files := by
  decide

/-- C5 (amended): the invocations run one after the other, the marker is absent at the
start, and the file system lets `touch` create it.  Then the invocation at position
`i` sleeps 10 seconds if and only if its third argument is `delete`, its fourth
argument does not contain "healthcheck" (`faultMatches`), and no earlier invocation
is such; every other invocation sleeps 0 seconds; so at most one invocation sleeps.
For an invocation with exactly two global flag tokens before the verb, `faultMatches`
says that the verb is `delete` and the argument after it, if any, does not contain
"healthcheck".  After a setup by `replaceGrootFSWithHangingVersion` that succeeds and
whose `os.Remove` does not fail, the marker is absent. -/
theorem C5_sequential_invocations_sleep_once (sh : cell_test.Shim) (run : List String → Nat)
    (fs : cell_test.FS) (argss : List (List String))
    (habsent : cell_test.lock_file sh.node ∉ fs.files)
    (htouch : cell_test.lock_file sh.node ∉ fs.cannotCreate) :
    (cell_test.sleepSeconds sh run fs argss).length = argss.length ∧
    (∀ i, i < argss.length →
      ((cell_test.sleepSeconds sh run fs argss).getD i 0 = 10 ↔
        cell_test.faultMatches (argss.getD i []) = true ∧
          ∀ j, j < i → cell_test.faultMatches (argss.getD j []) = false)) ∧
    (∀ i, (cell_test.sleepSeconds sh run fs argss).getD i 0 = 10 ∨
      (cell_test.sleepSeconds sh run fs argss).getD i 0 = 0) ∧
    ((cell_test.sleepSeconds sh run fs argss).filter fun n => n != 0).length ≤ 1 ∧
    (∀ (flag1 flag2 verb : String) (rest : List String),
      cell_test.faultMatches (cell_test.pluginArgs [flag1, flag2] verb rest) = true ↔
        verb = "delete" ∧
          ∀ a, rest.head? = some a → strings.Contains a "healthcheck" = false) ∧
    (∀ (env : cell_test.SetupEnv) (node : Nat) (path : String) (fs0 fs1 : cell_test.FS)
        (sh1 : cell_test.Shim),
      cell_test.replaceGrootFSWithHangingVersion env node path fs0 = (Except.ok sh1, fs1) →
      cell_test.lock_file node ∉ fs0.cannotRemove →
        sh1.node = node ∧ cell_test.lock_file sh1.node ∉ fs1.files) := by
  have hs : cell_test.sleepSeconds sh run fs argss = cell_test.oneShotSleeps argss :=
    cell_test.invokeAll_unmarked sh run fs argss habsent htouch
  rw [hs]
  refine ⟨cell_test.oneShotSleeps_length argss,
    fun i hi => cell_test.oneShotSleeps_first argss i hi,
    fun i => cell_test.oneShotSleeps_values argss i, cell_test.oneShotSleeps_count argss,
    cell_test.faultMatches_two_flags_iff, ?_⟩
  intro env node path fs0 fs1 sh1 hsetup hremove
  obtain ⟨hsh, hl, _⟩ := cell_test.setup_removes_marker env node path fs0 fs1 sh1 hsetup hremove
  subst hsh
  exact ⟨rfl, hl⟩

/-- C5 (amended), at a concrete sequence with the marker absent: a health-check delete,
a create, and two deletes; only the first of the two deletes sleeps. -/
theorem C5_sequential_invocations_sleep_once_witness :
    cell_test.lock_file cell_test.sampleShim.node ∉ cell_test.emptyFS.files ∧
    cell_test.lock_file cell_test.sampleShim.node ∉ cell_test.emptyFS.cannotCreate ∧
    cell_test.sleepSeconds cell_test.sampleShim (fun _ => 0) cell_test.emptyFS
        [cell_test.deleteArgs "executor-healthcheck-1", ["--store", "/var/store", "create", "c1"],
          cell_test.deleteArgs "c1", cell_test.deleteArgs "c2"] = [0, 0, 10, 0] ∧
    ((cell_test.sleepSeconds cell_test.sampleShim (fun _ => 0) cell_test.emptyFS
        [cell_test.deleteArgs "executor-healthcheck-1", ["--store", "/var/store", "create", "c1"],
          cell_test.deleteArgs "c1", cell_test.deleteArgs "c2"]).filter fun n => n != 0).length ≤ 1 :=
  ⟨by decide, by decide, by decide,
    (C5_sequential_invocations_sleep_once cell_test.sampleShim (fun _ => 0) cell_test.emptyFS
      [cell_test.deleteArgs "executor-healthcheck-1", ["--store", "/var/store", "create", "c1"],
        cell_test.deleteArgs "c1", cell_test.deleteArgs "c2"] (by decide) (by decide)).2.2.2.1⟩

/-- C6: when the path of the wrapped binary is one plain word with a `/` (so that the
unquoted path in the last line of the script is the program), every invocation of
the shim, matching or not, marker present or not, runs the wrapped binary exactly
once, with the argument list it was given, and ends with the exit status of that
run; an invocation that does not match does not sleep. -/
theorem C6_shim_delegates_once_same_args_same_status (sh : cell_test.Shim)
    (run : List String → Nat) (fs : cell_test.FS) (args : List String)
    (hpath : cell_test.plainPath sh.path = true) :
    (cell_test.shim sh run fs args).2.ran = [{ path := sh.path, args := args }] ∧
    (cell_test.shim sh run fs args).2.status = some (run (sh.path :: args)) ∧
    (cell_test.shim sh run fs args).2.pc = cell_test.Pc.finished ∧
    (cell_test.faultMatches args = false → (cell_test.shim sh run fs args).2.slept = 0) := by
  have hcmd := cell_test.commandLine_plain sh.path args hpath
  rw [cell_test.shim_eq]
  split
  · next h =>
    refine ⟨by simp [cell_test.Invocation.atEnd, hcmd], by simp [cell_test.Invocation.atEnd, hcmd],
      cell_test.atEnd_pc sh run args 10, fun hm => ?_⟩
    simp [hm] at h
  · exact ⟨by simp [cell_test.Invocation.atEnd, hcmd], by simp [cell_test.Invocation.atEnd, hcmd],
      cell_test.atEnd_pc sh run args 0, fun _ => cell_test.atEnd_slept sh run args 0⟩

/-- C6, at the shim around `/var/vcap/packages/grootfs/bin/grootfs` and a delete that
matches: the wrapped binary is run once with the same arguments and its exit status
3 is the exit status of the shim. -/
theorem C6_shim_delegates_once_same_args_same_status_witness :
    cell_test.plainPath cell_test.sampleShim.path = true ∧
    (cell_test.shim cell_test.sampleShim (fun _ => 3) cell_test.emptyFS
        (cell_test.deleteArgs "c1")).2.ran =
      [{ path := "/var/vcap/packages/grootfs/bin/grootfs", args := cell_test.deleteArgs "c1" }] ∧
    (cell_test.shim cell_test.sampleShim (fun _ => 3) cell_test.emptyFS
        (cell_test.deleteArgs "c1")).2.status = some 3 :=
  ⟨by decide,
    (C6_shim_delegates_once_same_args_same_status cell_test.sampleShim (fun _ => 3)
      cell_test.emptyFS (cell_test.deleteArgs "c1") (by decide)).1,
    (C6_shim_delegates_once_same_args_same_status cell_test.sampleShim (fun _ => 3)
      cell_test.emptyFS (cell_test.deleteArgs "c1") (by decide)).2.1⟩

/-- C7 (counterexample): with four global flag tokens before the verb, a delete of a
container that is not a health-check container, made while the marker is absent, does
not sleep: the script looks at the third and fourth argument only. -/
theorem C7_four_flag_tokens_no_delay :
    (cell_test.shim cell_test.sampleShim (fun _ => 0) cell_test.emptyFS
        (cell_test.pluginArgs ["--log-level", "debug", "--store", "/var/store"] "delete" ["c1"])).2.slept
      = 0 ∧
    strings.Contains "c1" "healthcheck" = false ∧
    cell_test.lock_file cell_test.sampleShim.node ∉ cell_test.emptyFS.files := by
  decide

/-- C7 (amended): for an invocation with exactly two global flag tokens before the
verb, made while the marker is absent, the shim sleeps 10 seconds if and only if the
verb is `delete` and the argument that follows it, if any, does not contain
"healthcheck"; otherwise it does not sleep. -/
theorem C7_two_flag_tokens_delay_iff (sh : cell_test.Shim) (grootfs : List String → Nat)
    (fs : cell_test.FS) (flag1 flag2 verb : String) (rest : List String)
    (hl : cell_test.lock_file sh.node ∉ fs.files) :
    ((cell_test.shim sh grootfs fs (cell_test.pluginArgs [flag1, flag2] verb rest)).2.slept = 10 ↔
      verb = "delete" ∧ ∀ a, rest.head? = some a → strings.Contains a "healthcheck" = false) ∧
    ((cell_test.shim sh grootfs fs (cell_test.pluginArgs [flag1, flag2] verb rest)).2.slept = 10 ∨
      (cell_test.shim sh grootfs fs (cell_test.pluginArgs [flag1, flag2] verb rest)).2.slept = 0) := by
  have hhead : (∀ a, rest.head? = some a → strings.Contains a "healthcheck" = false) ↔
      strings.Contains (rest.headD "") "healthcheck" = false := by
    cases rest with
    | nil => simp; decide
    | cons a rest => simp
  rw [hhead]
  cases hm : cell_test.faultMatches (cell_test.pluginArgs [flag1, flag2] verb rest) with
  | false =>
    have hs : (cell_test.shim sh grootfs fs
        (cell_test.pluginArgs [flag1, flag2] verb rest)).2.slept = 0 := by
      rw [cell_test.shim_passes sh grootfs fs _ (Or.inl hm)]
      exact cell_test.atEnd_slept sh grootfs _ 0
    rw [hs]
    rw [cell_test.faultMatches_two_flags] at hm
    refine ⟨?_, Or.inr rfl⟩
    constructor
    · intro h; simp at h
    · rintro ⟨hv, hc⟩
      rw [hv, hc] at hm
      exact absurd hm (by decide)
  | true =>
    have hs : (cell_test.shim sh grootfs fs
        (cell_test.pluginArgs [flag1, flag2] verb rest)).2.slept = 10 := by
      rw [cell_test.shim_sleeps sh grootfs fs _ hm hl]
      exact cell_test.atEnd_slept sh grootfs _ 10
    rw [hs]
    rw [cell_test.faultMatches_two_flags] at hm
    refine ⟨?_, Or.inl rfl⟩
    simp only [Bool.and_eq_true, beq_iff_eq, Bool.not_eq_true'] at hm
    exact ⟨fun _ => hm, fun _ => rfl⟩

/-- C7 (amended), at `--store /var/store delete c1` with the marker absent: it sleeps. -/
theorem C7_two_flag_tokens_delay_iff_witness :
    cell_test.lock_file cell_test.sampleShim.node ∉ cell_test.emptyFS.files ∧
    (cell_test.shim cell_test.sampleShim (fun _ => 0) cell_test.emptyFS
        (cell_test.pluginArgs ["--store", "/var/store"] "delete" ["c1"])).2.slept = 10 :=
  ⟨by decide,
    (C7_two_flag_tokens_delay_iff cell_test.sampleShim (fun _ => 0) cell_test.emptyFS
      "--store" "/var/store" "delete" ["c1"] (by decide)).1.mpr
      ⟨rfl, fun a ha => by
        have : a = "c1" := by simpa using ha.symm
        subst this
        decide⟩⟩

/-! ## The evacuation scenarios -/

namespace cell_test

theorem stayingRoutable_nil (r : RepRunner) (log : List Event) :
    stayingRoutable r [] log = (Except.error "Timed out", log) := rfl

theorem stayingRoutable_cons (r : RepRunner) (s : Sample) (rest : List Sample)
    (log : List Event) :
    stayingRoutable r (s :: rest) log =
      if s.status = 200 then
        if s.exitCode = 0 then
          (Except.ok (), log ++ [Event.RouterProbe, Event.ExitCode r])
        else
          stayingRoutable r rest (log ++ [Event.RouterProbe, Event.ExitCode r])
      else
        (Except.error "Expected status to equal 200", log ++ [Event.RouterProbe]) := by
  by_cases hs : s.status = 200
  · by_cases he : s.exitCode = 0
    · simp [stayingRoutable, Test.Eventually, Test.andThen, routableAndExitCode, Test.bind_apply,
        emit, Test.modify, Test.expect, StatusOK, hs, he, Test.pure_apply, Test.ret]
    · simp [stayingRoutable, Test.Eventually, Test.andThen, routableAndExitCode, Test.bind_apply,
        emit, Test.modify, Test.expect, StatusOK, hs, he, Test.pure_apply]
  · simp [stayingRoutable, Test.Eventually, Test.andThen, routableAndExitCode, Test.bind_apply,
      emit, Test.modify, Test.expect, StatusOK, hs]

theorem stayingRoutable_passes_iff (r : RepRunner) (samples : List Sample) (log : List Event) :
    (stayingRoutable r samples log).1 = Except.ok () ↔
      ∃ before s later, samples = before ++ s :: later ∧ s.exitCode = 0 ∧
        (∀ t ∈ before, t.exitCode ≠ 0) ∧ (∀ t ∈ before ++ [s], t.status = 200) := by
  induction samples generalizing log with
  | nil =>
    rw [stayingRoutable_nil]
    constructor
    · intro h; cases h
    · rintro ⟨before, s, later, h, _⟩
      cases before <;> simp at h
  | cons a rest ih =>
    rw [stayingRoutable_cons]
    by_cases hs : a.status = 200
    · by_cases he : a.exitCode = 0
      · simp only [hs, he, if_true]
        constructor
        · intro _
          exact ⟨[], a, rest, rfl, he, by simp, by simp [hs]⟩
        · intro _; trivial
      · simp only [hs, he, if_true, if_false]
        rw [ih]
        constructor
        · rintro ⟨before, s, later, h, h0, hb, hall⟩
          refine ⟨a :: before, s, later, by simp [h], h0, ?_, ?_⟩
          · intro t ht
            rcases List.mem_cons.mp ht with ht | ht
            · rw [ht]; exact he
            · exact hb t ht
          · intro t ht
            rw [List.cons_append] at ht
            rcases List.mem_cons.mp ht with ht | ht
            · rw [ht]; exact hs
            · exact hall t ht
        · rintro ⟨before, s, later, h, h0, hb, hall⟩
          cases before with
          | nil =>
            simp only [List.nil_append, List.cons.injEq] at h
            rw [← h.1] at h0
            exact absurd h0 he
          | cons b before =>
            simp only [List.cons_append, List.cons.injEq] at h
            refine ⟨before, s, later, h.2, h0, fun t ht => hb t (List.mem_cons_of_mem _ ht), ?_⟩
            intro t ht
            exact hall t (by rw [List.cons_append]; exact List.mem_cons_of_mem _ ht)
    · simp only [hs, if_false]
      constructor
      · intro h; cases h
      · rintro ⟨before, s, later, h, _, _, hall⟩
        exfalso
        apply hs
        cases before with
        | nil =>
          simp only [List.nil_append, List.cons.injEq] at h
          rw [h.1]
          exact hall s (by simp)
        | cons b before =>
          simp only [List.cons_append, List.cons.injEq] at h
          rw [h.1]
          exact hall b (by simp)

theorem stayingRoutable_fails_at (r : RepRunner) (before : List Sample) (s : Sample)
    (later : List Sample) (log : List Event)
    (hs : s.status ≠ 200) (hb : ∀ t ∈ before, t.status = 200 ∧ t.exitCode ≠ 0) :
    stayingRoutable r (before ++ s :: later) log =
      (Except.error "Expected status to equal 200",
        log ++ pollEvents r before.length ++ [Event.RouterProbe]) := by
  induction before generalizing log with
  | nil =>
    rw [List.nil_append, stayingRoutable_cons]
    simp [hs, pollEvents]
  | cons b before ih =>
    have hb0 := hb b (List.mem_cons_self _ _)
    rw [List.cons_append, stayingRoutable_cons]
    simp only [hb0.1, hb0.2, if_true, if_false]
    rw [ih _ fun t ht => hb t (List.mem_cons_of_mem _ ht)]
    simp [pollEvents]

end cell_test

/-- C8: for every finite sequence of poll samples, the step `staying routable so long
as its rep is alive` passes if and only if some sample has exit code 0 and every sample
up to and including the first such sample has routing status 200; and a sample whose
routing status is not 200, reached while every earlier sample had status 200 and a
non-zero exit code, fails the step at that sample: the assertion fails right after
the router was probed for it, and no later sample is taken. -/
theorem C8_staying_routable_passes_iff (r : cell_test.RepRunner)
    (samples : List cell_test.Sample) (log : List cell_test.Event) :
    ((cell_test.stayingRoutable r samples log).1 = Except.ok () ↔
      ∃ before s later, samples = before ++ s :: later ∧ s.exitCode = 0 ∧
        (∀ t ∈ before, t.exitCode ≠ 0) ∧ (∀ t ∈ before ++ [s], t.status = 200)) ∧
    (∀ before s later, samples = before ++ s :: later → s.status ≠ 200 →
      (∀ t ∈ before, t.status = 200 ∧ t.exitCode ≠ 0) →
      cell_test.stayingRoutable r samples log =
        (Except.error "Expected status to equal 200",
          log ++ cell_test.pollEvents r before.length ++ [cell_test.Event.RouterProbe])) := by
  refine ⟨cell_test.stayingRoutable_passes_iff r samples log, ?_⟩
  intro before s later h hs hb
  rw [h]
  exact cell_test.stayingRoutable_fails_at r before s later log hs hb

/-- C8, at the samples (200, -1), (503, 0), (200, 0): the step fails at the second
sample, after two probes of the router and one call of `ExitCode()`, although a
later sample has exit code 0 and status 200. -/
theorem C8_staying_routable_passes_iff_witness :
    cell_test.stayingRoutable cell_test.sampleRunner
        [⟨200, -1⟩, ⟨503, 0⟩, ⟨200, 0⟩] [] =
      (Except.error "Expected status to equal 200",
        [] ++ cell_test.pollEvents cell_test.sampleRunner [(⟨200, -1⟩ : cell_test.Sample)].length ++
          [cell_test.Event.RouterProbe]) :=
  (C8_staying_routable_passes_iff cell_test.sampleRunner [⟨200, -1⟩, ⟨503, 0⟩, ⟨200, 0⟩] []).2
    [⟨200, -1⟩] ⟨503, 0⟩ [⟨200, 0⟩] rfl (by decide) (by decide)

namespace Test

theorem Eventually_pure {σ α : Type} (matcher : α → Bool) (xs : List α) (s : σ) :
    Eventually (pure : α → Test σ α) matcher xs s =
      (if xs.any matcher then Except.ok () else Except.error "Timed out", s) := by
  induction xs with
  | nil => rfl
  | cons a rest ih =>
    cases hm : matcher a with
    | true => simp [Eventually, andThen, pure_apply, hm, ret]
    | false => simp [Eventually, andThen, pure_apply, hm, ih]

theorem Consistently_pure_state {σ α : Type} (matcher : α → Bool) (xs : List α) (s : σ) :
    (Consistently (pure : α → Test σ α) matcher xs s).2 = s := by
  induction xs with
  | nil => rfl
  | cons a rest ih =>
    cases hm : matcher a with
    | true => simp [Consistently, andThen, pure_apply, hm, ih]
    | false => simp [Consistently, andThen, pure_apply, hm, abort]

end Test

namespace cell_test

theorem postEvacuate_transport_error (world : World) (port : Nat) (log : List Event) (e : String)
    (h : world.post (evacuateURL port) = Except.error e) :
    postEvacuate world port log =
      (Except.error ("Expected error not to have occurred: " ++ e),
        log ++ [Event.Post (evacuateURL port) "text/html"]) := by
  unfold evacuateURL at h
  simp [postEvacuate, Test.bind_apply, emit, Test.modify, Test.expectOk, h, Test.abort, evacuateURL]

theorem postEvacuate_status (world : World) (port : Nat) (log : List Event) (status : Nat)
    (h : world.post (evacuateURL port) = Except.ok status) :
    postEvacuate world port log =
      (if status = 202 then Except.ok () else Except.error "Expected status to equal 202",
        log ++ [Event.Post (evacuateURL port) "text/html", Event.BodyClose]) := by
  unfold evacuateURL at h
  by_cases hs : status = 202
  · simp [postEvacuate, Test.bind_apply, emit, Test.modify, Test.expectOk, h, Test.ret,
      Test.expect, StatusAccepted, evacuateURL, hs]
  · simp [postEvacuate, Test.bind_apply, emit, Test.modify, Test.expectOk, h, Test.ret,
      Test.expect, StatusAccepted, evacuateURL, hs]

theorem posts_append (l1 l2 : List Event) : posts (l1 ++ l2) = posts l1 ++ posts l2 := by
  simp [posts]

theorem exitCodeRunners_append (l1 l2 : List Event) :
    exitCodeRunners (l1 ++ l2) = exitCodeRunners l1 ++ exitCodeRunners l2 := by
  simp [exitCodeRunners]

theorem posts_stayingRoutable (r : RepRunner) (samples : List Sample) (log : List Event) :
    posts (stayingRoutable r samples log).2 = posts log := by
  induction samples generalizing log with
  | nil => rfl
  | cons a rest ih =>
    rw [stayingRoutable_cons]
    by_cases hs : a.status = 200
    · by_cases he : a.exitCode = 0
      · simp [hs, he, posts_append, posts]
      · simp only [hs, he, if_true, if_false]
        rw [ih, posts_append]
        simp [posts]
    · simp [hs, posts_append, posts]

theorem exitCodeRunners_stayingRoutable (r : RepRunner) (samples : List Sample)
    (log : List Event) :
    ∀ x ∈ exitCodeRunners (stayingRoutable r samples log).2, x ∈ exitCodeRunners log ∨ x = r := by
  induction samples generalizing log with
  | nil => intro x hx; exact Or.inl hx
  | cons a rest ih =>
    rw [stayingRoutable_cons]
    by_cases hs : a.status = 200
    · by_cases he : a.exitCode = 0
      · intro x hx
        simp only [hs, he, if_true, exitCodeRunners_append, List.mem_append] at hx
        rcases hx with hx | hx
        · exact Or.inl hx
        · right; simpa [exitCodeRunners] using hx
      · intro x hx
        simp only [hs, he, if_true, if_false] at hx
        rcases ih _ x hx with hx | hx
        · rw [exitCodeRunners_append, List.mem_append] at hx
          rcases hx with hx | hx
          · exact Or.inl hx
          · right; simpa [exitCodeRunners] using hx
        · exact Or.inr hx
    · intro x hx
      simp only [hs, if_false, exitCodeRunners_append, List.mem_append] at hx
      rcases hx with hx | hx
      · exact Or.inl hx
      · simp [exitCodeRunners] at hx

end cell_test

namespace cell_test

theorem evacuateAndVerify_transport_error (world : World) (r : RepRunner) (port : Nat)
    (log : List Event) (e : String) (h : world.post (evacuateURL port) = Except.error e) :
    evacuateAndVerify world r port log =
      (Except.error ("Expected error not to have occurred: " ++ e),
        log ++ [Event.By "posting the evacuation endpoint",
          Event.Post (evacuateURL port) "text/html"]) := by
  simp [evacuateAndVerify, Test.bind_apply, By, emit, Test.modify,
    postEvacuate_transport_error world port _ e h]

theorem evacuateAndVerify_other_status (world : World) (r : RepRunner) (port : Nat)
    (log : List Event) (status : Nat) (h : world.post (evacuateURL port) = Except.ok status)
    (hs : status ≠ 202) :
    evacuateAndVerify world r port log =
      (Except.error "Expected status to equal 202",
        log ++ [Event.By "posting the evacuation endpoint",
          Event.Post (evacuateURL port) "text/html", Event.BodyClose]) := by
  simp [evacuateAndVerify, Test.bind_apply, By, emit, Test.modify,
    postEvacuate_status world port _ status h, hs]

theorem evacuateAndVerify_accepted (world : World) (r : RepRunner) (port : Nat)
    (log : List Event) (h : world.post (evacuateURL port) = Except.ok 202) :
    (evacuateAndVerify world r port log).2 =
      (stayingRoutable r world.samples
        (log ++ [Event.By "posting the evacuation endpoint",
          Event.Post (evacuateURL port) "text/html", Event.BodyClose,
          Event.By "staying routable so long as its rep is alive"])).2 ++
        (if Test.failed (stayingRoutable r world.samples
            (log ++ [Event.By "posting the evacuation endpoint",
              Event.Post (evacuateURL port) "text/html", Event.BodyClose,
              Event.By "staying routable so long as its rep is alive"])).1 = true
          then [] else [Event.By "running immediately after the rep exits and is routable"]) := by
  simp only [evacuateAndVerify, Test.bind_apply, By, emit, Test.modify,
    postEvacuate_status world port _ 202 h, if_true, List.append_assoc, List.cons_append,
    List.nil_append]
  rcases hst : stayingRoutable r world.samples
      (log ++ [Event.By "posting the evacuation endpoint",
        Event.Post (evacuateURL port) "text/html", Event.BodyClose,
        Event.By "staying routable so long as its rep is alive"]) with ⟨res, log2⟩
  cases res with
  | error e => simp [Test.failed]
  | ok u =>
    cases hra : (world.stateAfter == ActualLRPStateRunning) with
    | false => simp [Test.expect, hra, Test.failed]
    | true => simp [Test.expect, hra, Test.Consistently_pure_state, Test.failed]

end cell_test

namespace cell_test

theorem stayingRoutable_extends (r : RepRunner) (samples : List Sample) (log : List Event) :
    ∃ evs, (stayingRoutable r samples log).2 = log ++ evs := by
  induction samples generalizing log with
  | nil => exact ⟨[], by simp [stayingRoutable_nil]⟩
  | cons a rest ih =>
    rw [stayingRoutable_cons]
    by_cases hs : a.status = 200
    · by_cases he : a.exitCode = 0
      · exact ⟨[Event.RouterProbe, Event.ExitCode r], by simp only [hs, he, if_true]⟩
      · obtain ⟨evs, hevs⟩ := ih (log ++ [Event.RouterProbe, Event.ExitCode r])
        refine ⟨[Event.RouterProbe, Event.ExitCode r] ++ evs, ?_⟩
        simp only [hs, he, if_true, if_false]
        rw [hevs, List.append_assoc]
    · exact ⟨[Event.RouterProbe], by simp only [hs, if_false]⟩

theorem handlesEvacuation_placed (v : Vars) (world : World) (CellId : String)
    (h : placedOn world CellId) :
    handlesEvacuation v world [] =
      if CellId == v.cellAID then
        evacuateAndVerify world v.cellARepRunner v.cellPortsStart
          [Event.By "desiring an LRP", Event.By "running an actual LRP instance"]
      else if CellId == v.cellBID then
        evacuateAndVerify world v.cellBRepRunner (addUint16 v.cellPortsStart 2)
          [Event.By "desiring an LRP", Event.By "running an actual LRP instance"]
      else
        (Except.error "what? who?",
          [Event.By "desiring an LRP", Event.By "running an actual LRP instance"]) := by
  obtain ⟨h1, h2, h3, h4, h5⟩ := h
  simp only [handlesEvacuation, Test.bind_apply, By, emit, Test.modify, h1, h4, h5,
    Test.expectNoError, Test.expectOk, Test.ret, Test.Eventually_pure, h2, h3, if_true,
    Test.expect, Bool.not_false, List.nil_append, List.cons_append]
  by_cases ha : CellId = v.cellAID
  · simp [ha]
  · by_cases hb : CellId = v.cellBID
    · simp only [beq_iff_eq, ha, hb, if_true, if_false]
      split <;> rfl
    · simp [ha, hb, Test.abort]

theorem shutsDownGracefully_transport_error (v : Vars) (world : World) (e : String)
    (h : lrpRunning world) (hp : world.post (evacuateURL v.cellPortsStart) = Except.error e) :
    shutsDownGracefully v world [] =
      (Except.error ("Expected error not to have occurred: " ++ e),
        shutdownLead ++ [Event.Post (evacuateURL v.cellPortsStart) "text/html"]) := by
  obtain ⟨h1, h2⟩ := h
  simp [shutsDownGracefully, Test.bind_apply, By, emit, Test.modify, h1, Test.expectNoError,
    Test.ret, Test.Eventually_pure, h2, postEvacuate_transport_error world _ _ e hp, shutdownLead]

theorem shutsDownGracefully_other_status (v : Vars) (world : World) (status : Nat)
    (h : lrpRunning world) (hp : world.post (evacuateURL v.cellPortsStart) = Except.ok status)
    (hs : status ≠ 202) :
    shutsDownGracefully v world [] =
      (Except.error "Expected status to equal 202",
        shutdownLead ++ [Event.Post (evacuateURL v.cellPortsStart) "text/html", Event.BodyClose]) := by
  obtain ⟨h1, h2⟩ := h
  simp [shutsDownGracefully, Test.bind_apply, By, emit, Test.modify, h1, Test.expectNoError,
    Test.ret, Test.Eventually_pure, h2, postEvacuate_status world _ _ status hp, hs, shutdownLead]

end cell_test

namespace cell_test

theorem posts_evacuateAndVerify (world : World) (r : RepRunner) (port : Nat) (log : List Event) :
    posts (evacuateAndVerify world r port log).2 = posts log ++ [evacuateURL port] := by
  cases hp : world.post (evacuateURL port) with
  | error e =>
    rw [evacuateAndVerify_transport_error world r port log e hp]
    simp [posts_append, posts]
  | ok status =>
    by_cases hs : status = 202
    · rw [hs] at hp
      rw [evacuateAndVerify_accepted world r port log hp, posts_append, posts_stayingRoutable,
        posts_append]
      split <;> simp [posts]
    · rw [evacuateAndVerify_other_status world r port log status hp hs]
      simp [posts_append, posts]

theorem exitCodeRunners_evacuateAndVerify (world : World) (r : RepRunner) (port : Nat)
    (log : List Event) :
    ∀ x ∈ exitCodeRunners (evacuateAndVerify world r port log).2,
      x ∈ exitCodeRunners log ∨ x = r := by
  intro x hx
  cases hp : world.post (evacuateURL port) with
  | error e =>
    rw [evacuateAndVerify_transport_error world r port log e hp, exitCodeRunners_append,
      List.mem_append] at hx
    rcases hx with hx | hx
    · exact Or.inl hx
    · simp [exitCodeRunners] at hx
  | ok status =>
    by_cases hs : status = 202
    · rw [hs] at hp
      rw [evacuateAndVerify_accepted world r port log hp, exitCodeRunners_append,
        List.mem_append] at hx
      rcases hx with hx | hx
      · rcases exitCodeRunners_stayingRoutable r world.samples _ x hx with hx | hx
        · rw [exitCodeRunners_append, List.mem_append] at hx
          rcases hx with hx | hx
          · exact Or.inl hx
          · simp [exitCodeRunners] at hx
        · exact Or.inr hx
      · split at hx <;> simp [exitCodeRunners] at hx
    · rw [evacuateAndVerify_other_status world r port log status hp hs, exitCodeRunners_append,
        List.mem_append] at hx
      rcases hx with hx | hx
      · exact Or.inl hx
      · simp [exitCodeRunners] at hx

theorem BeforeEach_vars (sw : SetupWorld) (v : Vars) (log0 log1 : List Event)
    (h : BeforeEach sw log0 = (Except.ok v, log1)) :
    v.cellAID = "cell-a" ∧ v.cellBID = "cell-b" ∧
    sw.ClaimPorts 4 = Except.ok v.cellPortsStart ∧
    v.cellARepRunner.config.CellID = "cell-a" ∧
    v.cellARepRunner.config.ListenAddr = "0.0.0.0:" ++ toString v.cellPortsStart ∧
    v.cellBRepRunner.config.CellID = "cell-b" ∧
    v.cellBRepRunner.config.ListenAddr =
      "0.0.0.0:" ++ toString (addUint16 v.cellPortsStart 2) := by
  simp only [BeforeEach, Test.bind_apply, Test.expectOk, Test.expectNoError] at h
  cases hc : sw.ClaimPorts 4 with
  | error e => simp [hc, Test.abort] at h
  | ok p =>
    cases ht : sw.tlsErr with
    | some e => simp [hc, ht, Test.abort, Test.ret] at h
    | none =>
      simp only [hc, ht, Test.ret, Test.pure_apply, Prod.mk.injEq, Except.ok.injEq] at h
      obtain ⟨hv, _⟩ := h
      subst hv
      simp [RepN]

end cell_test

/-- C9: with the variables set by `BeforeEach`, and the workload placed on cell
`CellId`: for "cell-a" the one request of the scenario is posted to the port that
stands in the `ListenAddr` of the rep configured with cell ID "cell-a"
(`cellPortsStart`), and every `ExitCode()` is asked of that rep's runner; for
"cell-b" the same holds with the rep of "cell-b" and the port `cellPortsStart + 2`
(in `uint16` arithmetic); for any other cell ID the scenario aborts with the panic
and posts nothing. -/
theorem C9_request_goes_to_hosting_cell (sw : cell_test.SetupWorld) (v : cell_test.Vars)
    (world : cell_test.World) (log0 log1 : List cell_test.Event) (CellId : String)
    (hsetup : cell_test.BeforeEach sw log0 = (Except.ok v, log1))
    (hplaced : cell_test.placedOn world CellId) :
    (CellId = "cell-a" →
      ∃ port, port = v.cellPortsStart ∧
        cell_test.posts (cell_test.handlesEvacuation v world []).2 =
          ["https://127.0.0.1:" ++ toString port ++ "/evacuate"] ∧
        v.cellARepRunner.config.CellID = "cell-a" ∧
        v.cellARepRunner.config.ListenAddr = "0.0.0.0:" ++ toString port ∧
        ∀ r ∈ cell_test.exitCodeRunners (cell_test.handlesEvacuation v world []).2,
          r = v.cellARepRunner) ∧
    (CellId = "cell-b" →
      ∃ port, port = (v.cellPortsStart + 2) % 65536 ∧
        cell_test.posts (cell_test.handlesEvacuation v world []).2 =
          ["https://127.0.0.1:" ++ toString port ++ "/evacuate"] ∧
        v.cellBRepRunner.config.CellID = "cell-b" ∧
        v.cellBRepRunner.config.ListenAddr = "0.0.0.0:" ++ toString port ∧
        ∀ r ∈ cell_test.exitCodeRunners (cell_test.handlesEvacuation v world []).2,
          r = v.cellBRepRunner) ∧
    (CellId ≠ "cell-a" → CellId ≠ "cell-b" →
      (cell_test.handlesEvacuation v world []).1 = Except.error "what? who?" ∧
      cell_test.posts (cell_test.handlesEvacuation v world []).2 = []) := by
  obtain ⟨hA, hB, _, hAid, hAaddr, hBid, hBaddr⟩ := cell_test.BeforeEach_vars sw v log0 log1 hsetup
  rw [cell_test.handlesEvacuation_placed v world CellId hplaced, hA, hB]
  refine ⟨?_, ?_, ?_⟩
  · intro hc
    subst hc
    refine ⟨v.cellPortsStart, rfl, ?_, hAid, hAaddr, ?_⟩
    · simp only [beq_self_eq_true, if_true]
      rw [cell_test.posts_evacuateAndVerify]
      simp [cell_test.posts, cell_test.evacuateURL]
    · intro r hr
      simp only [beq_self_eq_true, if_true] at hr
      rcases cell_test.exitCodeRunners_evacuateAndVerify world _ _ _ r hr with h | h
      · simp [cell_test.exitCodeRunners] at h
      · exact h
  · intro hc
    subst hc
    have hne : ("cell-b" == "cell-a") = false := by decide
    refine ⟨(v.cellPortsStart + 2) % 65536, rfl, ?_, hBid, hBaddr, ?_⟩
    · simp only [hne, beq_self_eq_true, if_true, Bool.false_eq_true, if_false]
      rw [cell_test.posts_evacuateAndVerify]
      simp [cell_test.posts, cell_test.evacuateURL, cell_test.addUint16]
    · intro r hr
      simp only [hne, beq_self_eq_true, if_true, Bool.false_eq_true, if_false] at hr
      rcases cell_test.exitCodeRunners_evacuateAndVerify world _ _ _ r hr with h | h
      · simp [cell_test.exitCodeRunners] at h
      · exact h
  · intro ha hb
    have h1 : (CellId == "cell-a") = false := by simpa using ha
    have h2 : (CellId == "cell-b") = false := by simpa using hb
    simp [h1, h2, cell_test.posts]

/-- C9, at a workload placed on "cell-b" after ports 61000 to 61003 were claimed: the
request goes to port 61002, the port in the `ListenAddr` of the rep of "cell-b". -/
theorem C9_request_goes_to_hosting_cell_witness :
    cell_test.BeforeEach cell_test.sampleSetupWorld [] = (Except.ok cell_test.sampleVars, []) ∧
    cell_test.placedOn (cell_test.sampleWorld "cell-b" 202) "cell-b" ∧
    ∃ port, port = (cell_test.sampleVars.cellPortsStart + 2) % 65536 ∧
      cell_test.posts (cell_test.handlesEvacuation cell_test.sampleVars
          (cell_test.sampleWorld "cell-b" 202) []).2 =
        ["https://127.0.0.1:" ++ toString port ++ "/evacuate"] ∧
      cell_test.sampleVars.cellBRepRunner.config.CellID = "cell-b" ∧
      cell_test.sampleVars.cellBRepRunner.config.ListenAddr = "0.0.0.0:" ++ toString port ∧
      ∀ r ∈ cell_test.exitCodeRunners (cell_test.handlesEvacuation cell_test.sampleVars
          (cell_test.sampleWorld "cell-b" 202) []).2,
        r = cell_test.sampleVars.cellBRepRunner :=
  ⟨rfl, ⟨rfl, rfl, rfl, rfl, rfl⟩,
    (C9_request_goes_to_hosting_cell cell_test.sampleSetupWorld cell_test.sampleVars
      (cell_test.sampleWorld "cell-b" 202) [] [] "cell-b" rfl ⟨rfl, rfl, rfl, rfl, rfl⟩).2.1 rfl⟩

/-! ## The stager runner: `Stop` and the command line of `Start` -/

namespace stager_runner

theorem Start_launch_error (env : StartEnv) (args : List String) (s : RunnerState) (e : String)
    (hstart : env.startErr = some e) :
    Start env args s = (Except.error ("Expected error not to have occurred: " ++ e), s) := by
  simp [Start, StartWrapped, Test.bind_apply, Test.get, Test.abort, hstart]

theorem Start_ready (env : StartEnv) (args : List String) (s : RunnerState)
    (hstart : env.startErr = none)
    (hsay : env.saysWithin "Listening for staging requests!" 1000 = true) :
    Start env args s =
      (Except.ok (),
        { r := { s.r with stagerSession := some { pid := s.os.launched.length } },
          os := { s.os with launched := s.os.launched ++ [startCommand s.r args] } }) := by
  simp [Start, StartWrapped, Test.bind_apply, Test.get, Test.expect, Test.modify, hstart, hsay,
    startCommand]

theorem Stop_with_session (s : RunnerState) (session : Session)
    (h : s.r.stagerSession = some session) :
    Stop s =
      (Except.ok (),
        if session.pid ∈ s.os.exited then s
        else { s with os := { s.os with
          delivered := s.os.delivered ++ [(session.pid, Signal.SIGTERM)] } }) := by
  by_cases hx : session.pid ∈ s.os.exited
  · simp [Stop, Test.bind_apply, Test.get, h, ProcessSignal, hx, Test.pure_apply]
  · simp [Stop, Test.bind_apply, Test.get, h, ProcessSignal, hx, Test.pure_apply]

theorem Stop_ok (s : RunnerState) : (Stop s).1 = Except.ok () := by
  cases h : s.r.stagerSession with
  | none => rw [Stop_without_session s h]
  | some session => rw [Stop_with_session s session h]

theorem Stop_runner (s : RunnerState) : (Stop s).2.r = s.r := by
  cases h : s.r.stagerSession with
  | none => rw [Stop_without_session s h]
  | some session =>
    rw [Stop_with_session s session h]
    split <;> rfl

theorem Stop_launched (s : RunnerState) : (Stop s).2.os.launched = s.os.launched := by
  cases h : s.r.stagerSession with
  | none => rw [Stop_without_session s h]
  | some session =>
    rw [Stop_with_session s session h]
    split <;> rfl

theorem sessionLaunched_Start (env : StartEnv) (args : List String) (s : RunnerState)
    (h : sessionLaunched s) : sessionLaunched (Start env args s).2 := by
  cases hstart : env.startErr with
  | some e => rw [Start_launch_error env args s e hstart]; exact h
  | none =>
    cases hsay : env.saysWithin "Listening for staging requests!" 1000 with
    | false =>
      rw [Start_timeout env args s hstart hsay]
      intro session hs
      have := h session hs
      simp only [List.length_append, List.length_singleton]
      omega
    | true =>
      rw [Start_ready env args s hstart hsay]
      intro session hs
      simp only [Option.some.injEq] at hs
      rw [← hs]
      simp

theorem sessionLaunched_apply (c : Call) (s : RunnerState) (h : sessionLaunched s) :
    sessionLaunched (c.apply s) := by
  cases c with
  | Start env args => exact sessionLaunched_Start env args s h
  | Stop =>
    intro session hs
    simp only [Call.apply] at hs ⊢
    rw [Stop_runner] at hs
    rw [Stop_launched]
    exact h session hs
  | Exit pid => exact h

theorem sessionLaunched_runCalls (calls : List Call) (s : RunnerState) (h : sessionLaunched s) :
    sessionLaunched (runCalls calls s) := by
  induction calls generalizing s with
  | nil => exact h
  | cons c rest ih => exact ih (c.apply s) (sessionLaunched_apply c s h)

end stager_runner

/-- C11: in every state reached from a runner built by `New` through calls of `Start`
and `Stop` (and exits of processes), `Stop` reports no error and leaves the runner
as it is; without a session it changes nothing at all (no signal); with a session it
delivers SIGTERM to the process of the session, or, when that process has already
exited, drops the delivery failure and changes nothing; a second `Stop` leaves the
same runner as the first; and a session always names a launched process, so `Stop`
never reaches through a nil session or process. -/
theorem C11_Stop_no_error_runner_unchanged (stagerBin : String)
    (etcdCluster natsAddresses : List String) (os : stager_runner.OS)
    (calls : List stager_runner.Call) :
    (stager_runner.Stop (stager_runner.runCalls calls
        { r := stager_runner.New stagerBin etcdCluster natsAddresses, os := os })).1 =
      Except.ok () ∧
    (stager_runner.Stop (stager_runner.runCalls calls
        { r := stager_runner.New stagerBin etcdCluster natsAddresses, os := os })).2.r =
      (stager_runner.runCalls calls
        { r := stager_runner.New stagerBin etcdCluster natsAddresses, os := os }).r ∧
    ((stager_runner.runCalls calls
        { r := stager_runner.New stagerBin etcdCluster natsAddresses, os := os }).r.stagerSession =
        none →
      (stager_runner.Stop (stager_runner.runCalls calls
        { r := stager_runner.New stagerBin etcdCluster natsAddresses, os := os })).2 =
      stager_runner.runCalls calls
        { r := stager_runner.New stagerBin etcdCluster natsAddresses, os := os }) ∧
    (∀ session, (stager_runner.runCalls calls
        { r := stager_runner.New stagerBin etcdCluster natsAddresses, os := os }).r.stagerSession =
        some session →
      session.pid < (stager_runner.runCalls calls
        { r := stager_runner.New stagerBin etcdCluster natsAddresses, os := os }).os.launched.length ∧
      (session.pid ∉ (stager_runner.runCalls calls
          { r := stager_runner.New stagerBin etcdCluster natsAddresses, os := os }).os.exited →
        (stager_runner.Stop (stager_runner.runCalls calls
          { r := stager_runner.New stagerBin etcdCluster natsAddresses, os := os })).2.os.delivered =
        (stager_runner.runCalls calls
          { r := stager_runner.New stagerBin etcdCluster natsAddresses, os := os }).os.delivered ++
          [(session.pid, stager_runner.Signal.SIGTERM)]) ∧
      (session.pid ∈ (stager_runner.runCalls calls
          { r := stager_runner.New stagerBin etcdCluster natsAddresses, os := os }).os.exited →
        (stager_runner.Stop (stager_runner.runCalls calls
          { r := stager_runner.New stagerBin etcdCluster natsAddresses, os := os })).2 =
        stager_runner.runCalls calls
          { r := stager_runner.New stagerBin etcdCluster natsAddresses, os := os })) ∧
    (stager_runner.Stop (stager_runner.Stop (stager_runner.runCalls calls
        { r := stager_runner.New stagerBin etcdCluster natsAddresses, os := os })).2).2.r =
      (stager_runner.Stop (stager_runner.runCalls calls
        { r := stager_runner.New stagerBin etcdCluster natsAddresses, os := os })).2.r ∧
    (stager_runner.Stop (stager_runner.Stop (stager_runner.runCalls calls
        { r := stager_runner.New stagerBin etcdCluster natsAddresses, os := os })).2).1 =
      Except.ok () := by
  have hreach : stager_runner.sessionLaunched (stager_runner.runCalls calls
      { r := stager_runner.New stagerBin etcdCluster natsAddresses, os := os }) :=
    stager_runner.sessionLaunched_runCalls calls _ (fun session hs => by
      simp [stager_runner.New] at hs)
  generalize stager_runner.runCalls calls
    { r := stager_runner.New stagerBin etcdCluster natsAddresses, os := os } = s at hreach ⊢
  refine ⟨stager_runner.Stop_ok s, stager_runner.Stop_runner s, ?_, ?_,
    stager_runner.Stop_runner _, stager_runner.Stop_ok _⟩
  · intro h
    rw [stager_runner.Stop_without_session s h]
  · intro session h
    refine ⟨hreach session h, ?_, ?_⟩
    · intro hx
      rw [stager_runner.Stop_with_session s session h]
      simp [hx]
    · intro hx
      rw [stager_runner.Stop_with_session s session h]
      simp [hx]

/-- C11, at a runner that was started once: its session names process 0, which has not
exited, and `Stop` delivers SIGTERM to it. -/
theorem C11_Stop_no_error_runner_unchanged_witness :
    (stager_runner.runCalls [stager_runner.Call.Start stager_runner.readyEnv ["-a"]]
        { r := stager_runner.New "stager" ["e"] ["n"],
          os := stager_runner.freshOS }).r.stagerSession = some { pid := 0 } ∧
    (stager_runner.Stop (stager_runner.runCalls
        [stager_runner.Call.Start stager_runner.readyEnv ["-a"]]
        { r := stager_runner.New "stager" ["e"] ["n"],
          os := stager_runner.freshOS })).2.os.delivered =
      (stager_runner.runCalls [stager_runner.Call.Start stager_runner.readyEnv ["-a"]]
        { r := stager_runner.New "stager" ["e"] ["n"],
          os := stager_runner.freshOS }).os.delivered ++
        [(0, stager_runner.Signal.SIGTERM)] :=
  ⟨by decide,
    ((C11_Stop_no_error_runner_unchanged "stager" ["e"] ["n"] stager_runner.freshOS
      [stager_runner.Call.Start stager_runner.readyEnv ["-a"]]).2.2.2.1
        { pid := 0 } (by decide)).2.1 (by decide)⟩

namespace strings

theorem intercalate_go (acc sep : String) (rest : List String) :
    String.intercalate.go acc sep rest =
      acc ++ String.join (rest.map fun e => sep ++ e) := by
  induction rest generalizing acc with
  | nil => simp [String.intercalate.go, String.join]
  | cons a rest ih =>
    simp only [String.intercalate.go, ih, List.map_cons]
    have hj : ∀ (init : String) (l : List String),
        List.foldl (fun r e => r ++ e) init l = init ++ List.foldl (fun r e => r ++ e) "" l := by
      intro init l
      induction l generalizing init with
      | nil => simp
      | cons x l ihl =>
        simp only [List.foldl_cons]
        rw [ihl (init ++ x), ihl ("" ++ x)]
        simp [String.append_assoc]
    simp only [String.join, List.foldl_cons]
    rw [hj ("" ++ (sep ++ a))]
    simp [String.append_assoc]

/-- `Join` of no element is the empty string. -/
theorem Join_nil (sep : String) : Join [] sep = "" := rfl

/-- `Join` of one element is that element. -/
theorem Join_singleton (a sep : String) : Join [a] sep = a := rfl

/-- `Join` puts the separator between an element and the joined rest. -/
theorem Join_cons_cons (a b sep : String) (rest : List String) :
    Join (a :: b :: rest) sep = a ++ sep ++ Join (b :: rest) sep := by
  simp only [Join, String.intercalate, String.intercalate.go]
  rw [intercalate_go, intercalate_go]
  simp [String.append_assoc]

end strings

namespace stager_runner

theorem Start_launched (env : StartEnv) (args : List String) (s : RunnerState) :
    (Start env args s).2.os.launched =
      s.os.launched ++ (match env.startErr with
        | none => [startCommand s.r args]
        | some _ => []) := by
  cases hstart : env.startErr with
  | some e => rw [Start_launch_error env args s e hstart]; simp
  | none =>
    cases hsay : env.saysWithin "Listening for staging requests!" 1000 with
    | false => rw [Start_timeout env args s hstart hsay]; rfl
    | true => rw [Start_ready env args s hstart hsay]

theorem Start_fields (env : StartEnv) (args : List String) (s : RunnerState) :
    (Start env args s).2.r.stagerBin = s.r.stagerBin ∧
    (Start env args s).2.r.etcdCluster = s.r.etcdCluster ∧
    (Start env args s).2.r.natsAddresses = s.r.natsAddresses := by
  cases hstart : env.startErr with
  | some e => rw [Start_launch_error env args s e hstart]; exact ⟨rfl, rfl, rfl⟩
  | none =>
    cases hsay : env.saysWithin "Listening for staging requests!" 1000 with
    | false => rw [Start_timeout env args s hstart hsay]; exact ⟨rfl, rfl, rfl⟩
    | true => rw [Start_ready env args s hstart hsay]; exact ⟨rfl, rfl, rfl⟩

end stager_runner

/-- C12: for a runner built by `New(stagerBin, etcdCluster, natsAddresses)` and every
argument list `args`, the one process `Start` launches (it launches none when
`cmdtest.StartWrapped` returns an error) is `stagerBin` with the argument list
`-etcdCluster`, the joined etcd cluster, `-natsAddresses`, the joined NATS addresses,
followed by `args` in their order, of length `4 + len(args)`; and `Start` leaves
`stagerBin`, `etcdCluster` and `natsAddresses` of the runner unchanged, whether it
passes or fails. -/
theorem C12_Start_command_line (env : stager_runner.StartEnv) (stagerBin : String)
    (etcdCluster natsAddresses args : List String) (os : stager_runner.OS) :
    (env.startErr = none →
      (stager_runner.Start env args
          { r := stager_runner.New stagerBin etcdCluster natsAddresses, os := os }).2.os.launched =
        os.launched ++ [{ path := stagerBin,
                          args := ["-etcdCluster", strings.Join etcdCluster ",",
                                   "-natsAddresses", strings.Join natsAddresses ","] ++ args }]) ∧
    (∀ e, env.startErr = some e →
      (stager_runner.Start env args
          { r := stager_runner.New stagerBin etcdCluster natsAddresses, os := os }).2.os.launched =
        os.launched) ∧
    (stager_runner.startCommand (stager_runner.New stagerBin etcdCluster natsAddresses) args).args.length =
      4 + args.length ∧
    (stager_runner.Start env args
        { r := stager_runner.New stagerBin etcdCluster natsAddresses, os := os }).2.r.stagerBin =
      stagerBin ∧
    (stager_runner.Start env args
        { r := stager_runner.New stagerBin etcdCluster natsAddresses, os := os }).2.r.etcdCluster =
      etcdCluster ∧
    (stager_runner.Start env args
        { r := stager_runner.New stagerBin etcdCluster natsAddresses, os := os }).2.r.natsAddresses =
      natsAddresses := by
  obtain ⟨h1, h2, h3⟩ := stager_runner.Start_fields env args
    { r := stager_runner.New stagerBin etcdCluster natsAddresses, os := os }
  refine ⟨?_, ?_, ?_, h1, h2, h3⟩
  · intro hstart
    rw [stager_runner.Start_launched, hstart]
    rfl
  · intro e hstart
    rw [stager_runner.Start_launched, hstart]
    simp
  · simp [stager_runner.startCommand]
    omega

/-- C12, at `New("stager", ["e1", "e2"], ["n1"])` started with `-x -y`: the launched
command line is `stager -etcdCluster e1,e2 -natsAddresses n1 -x -y`. -/
theorem C12_Start_command_line_witness :
    (stager_runner.Start stager_runner.readyEnv ["-x", "-y"]
        { r := stager_runner.New "stager" ["e1", "e2"] ["n1"],
          os := stager_runner.freshOS }).2.os.launched =
      [{ path := "stager", args := ["-etcdCluster", "e1,e2", "-natsAddresses", "n1", "-x", "-y"] }] :=
  (C12_Start_command_line stager_runner.readyEnv "stager" ["e1", "e2"] ["n1"] ["-x", "-y"]
    stager_runner.freshOS).1 rfl

/-! ## The listen ports of the two cells -/

namespace cell_test

theorem BeforeEach_addrs (sw : SetupWorld) (v : Vars) (log0 log1 : List Event)
    (h : BeforeEach sw log0 = (Except.ok v, log1)) :
    sw.ClaimPorts 4 = Except.ok v.cellPortsStart ∧
    [v.cellARepRunner.config.ListenAddr, v.cellARepRunner.config.ListenAddrSecurable,
      v.cellBRepRunner.config.ListenAddr, v.cellBRepRunner.config.ListenAddrSecurable] =
      (listenPorts v.cellPortsStart).map fun q => "0.0.0.0:" ++ toString q := by
  simp only [BeforeEach, Test.bind_apply, Test.expectOk, Test.expectNoError] at h
  cases hc : sw.ClaimPorts 4 with
  | error e => simp [hc, Test.abort] at h
  | ok p =>
    cases ht : sw.tlsErr with
    | some e => simp [hc, ht, Test.abort, Test.ret] at h
    | none =>
      simp only [hc, ht, Test.ret, Test.pure_apply, Prod.mk.injEq, Except.ok.injEq] at h
      obtain ⟨hv, _⟩ := h
      subst hv
      simp [RepN, listenPorts]

theorem listenPorts_distinct (p : Nat) :
    (listenPorts p).Pairwise fun a b => a ≠ b := by
  simp only [listenPorts, addUint16, List.pairwise_cons, List.mem_cons, List.mem_singleton,
    List.not_mem_nil, false_imp_iff, implies_true, List.Pairwise.nil, and_true, forall_eq_or_imp,
    forall_eq]
  omega

theorem listenPorts_inside (p : Nat) (hp : p ≤ 65532) :
    ∀ q ∈ listenPorts p, p ≤ q ∧ q < p + 4 := by
  simp only [listenPorts, addUint16, List.mem_cons, List.mem_singleton, List.not_mem_nil,
    or_false, forall_eq_or_imp, forall_eq]
  omega

end cell_test

/-- C13: with the variables set by `BeforeEach` from the start port `p` returned by
`ClaimPorts(4)`, the four listen addresses configured for the two cells carry the
ports `p`, `p+1`, `p+2`, `p+3` computed modulo 2^16; these four ports are pairwise
distinct, also when the addition wraps; and when `p ≤ 65532` every one of them lies
in the claimed block from `p` up to `p+4`, `p+4` left out.  (Every `uint16` value of
`p` is covered: the bound `p < 2^16` is not needed for any part.) -/
theorem C13_listen_ports_distinct_inside_block (sw : cell_test.SetupWorld) (v : cell_test.Vars)
    (log0 log1 : List cell_test.Event)
    (hsetup : cell_test.BeforeEach sw log0 = (Except.ok v, log1)) :
    sw.ClaimPorts 4 = Except.ok v.cellPortsStart ∧
    [v.cellARepRunner.config.ListenAddr, v.cellARepRunner.config.ListenAddrSecurable,
      v.cellBRepRunner.config.ListenAddr, v.cellBRepRunner.config.ListenAddrSecurable] =
      (cell_test.listenPorts v.cellPortsStart).map (fun q => "0.0.0.0:" ++ toString q) ∧
    cell_test.listenPorts v.cellPortsStart =
      [v.cellPortsStart, (v.cellPortsStart + 1) % 65536, (v.cellPortsStart + 2) % 65536,
        (v.cellPortsStart + 3) % 65536] ∧
    (cell_test.listenPorts v.cellPortsStart).Pairwise (fun a b => a ≠ b) ∧
    (v.cellPortsStart ≤ 65532 →
      ∀ q ∈ cell_test.listenPorts v.cellPortsStart,
        v.cellPortsStart ≤ q ∧ q < v.cellPortsStart + 4) := by
  obtain ⟨h1, h2⟩ := cell_test.BeforeEach_addrs sw v log0 log1 hsetup
  exact ⟨h1, h2, rfl, cell_test.listenPorts_distinct _,
    fun hp => cell_test.listenPorts_inside _ hp⟩

/-- C13, at the start port 61000: the ports are 61000 to 61003, pairwise distinct. -/
theorem C13_listen_ports_distinct_inside_block_witness :
    cell_test.BeforeEach cell_test.sampleSetupWorld [] = (Except.ok cell_test.sampleVars, []) ∧
    cell_test.listenPorts cell_test.sampleVars.cellPortsStart = [61000, 61001, 61002, 61003] ∧
    (cell_test.listenPorts cell_test.sampleVars.cellPortsStart).Pairwise (fun a b => a ≠ b) :=
  ⟨rfl, by decide,
    (C13_listen_ports_distinct_inside_block cell_test.sampleSetupWorld cell_test.sampleVars [] []
      rfl).2.2.2.1⟩

/-! ## The loop of stop requests -/

namespace cell_test

theorem stopLoopFrom_succ (outcome : Nat → Option String) (n i : Nat)
    (log : List StopLoopEvent) :
    stopLoopFrom outcome (n + 1) i log =
      match outcome i with
      | some _ => (Except.ok (), log ++ [StopLoopEvent.StopLRPInstance i])
      | none =>
        stopLoopFrom outcome n (i + 1)
          (log ++ [StopLoopEvent.StopLRPInstance i, StopLoopEvent.Sleep (100 * Millisecond)]) := by
  cases h : outcome i with
  | some e => simp [stopLoopFrom, Test.bind_apply, Test.modify, h, Test.pure_apply]
  | none => simp [stopLoopFrom, Test.bind_apply, Test.modify, h]

theorem stopLoopFrom_ok (outcome : Nat → Option String) (n i : Nat) (log : List StopLoopEvent) :
    (stopLoopFrom outcome n i log).1 = Except.ok () := by
  induction n generalizing i log with
  | zero => rfl
  | succ n ih =>
    rw [stopLoopFrom_succ]
    cases h : outcome i with
    | some e => rfl
    | none => exact ih _ _

theorem stopRequests_append (l1 l2 : List StopLoopEvent) :
    stopRequests (l1 ++ l2) = stopRequests l1 ++ stopRequests l2 := by
  simp [stopRequests]

theorem stopRequests_stopLoopFrom (outcome : Nat → Option String) (n i : Nat)
    (log : List StopLoopEvent) :
    stopRequests (stopLoopFrom outcome n i log).2 =
      stopRequests log ++ List.range' i (issued outcome n i) := by
  induction n generalizing i log with
  | zero => simp [stopLoopFrom, Test.pure_apply, issued]
  | succ n ih =>
    rw [stopLoopFrom_succ]
    cases h : outcome i with
    | some e => simp [issued, h, stopRequests_append, stopRequests]
    | none =>
      simp only [issued, h]
      rw [ih, stopRequests_append, Nat.add_comm 1, List.range'_succ]
      simp [stopRequests]

theorem issued_le (outcome : Nat → Option String) (n i : Nat) : issued outcome n i ≤ n := by
  induction n generalizing i with
  | zero => simp [issued]
  | succ n ih =>
    cases h : outcome i with
    | some e => simp [issued, h]
    | none =>
      have := ih (i + 1)
      simp only [issued, h]
      omega

theorem issued_all_ok (outcome : Nat → Option String) (n i : Nat)
    (h : ∀ j, i ≤ j → j < i + n → outcome j = none) : issued outcome n i = n := by
  induction n generalizing i with
  | zero => simp [issued]
  | succ n ih =>
    have h0 : outcome i = none := h i (Nat.le_refl i) (by omega)
    have := ih (i + 1) fun j hj1 hj2 => h j (by omega) (by omega)
    simp only [issued, h0]
    omega

theorem issued_first_error (outcome : Nat → Option String) (n i j : Nat)
    (hij : i ≤ j) (hjn : j < i + n) (hj : outcome j ≠ none)
    (hbefore : ∀ k, i ≤ k → k < j → outcome k = none) :
    issued outcome n i = j - i + 1 := by
  induction n generalizing i with
  | zero => omega
  | succ n ih =>
    by_cases hei : i = j
    · subst hei
      cases h : outcome i with
      | none => exact absurd h hj
      | some e => simp [issued, h]
    · have h0 : outcome i = none := hbefore i (Nat.le_refl i) (by omega)
      have := ih (i + 1) (by omega) (by omega) fun k hk1 hk2 => hbefore k (by omega) hk2
      simp only [issued, h0]
      omega

theorem issued_earlier_ok (outcome : Nat → Option String) (n i m : Nat)
    (h : m + 1 < issued outcome n i) : outcome (i + m) = none := by
  induction n generalizing i m with
  | zero => simp [issued] at h
  | succ n ih =>
    cases h0 : outcome i with
    | some e => simp [issued, h0] at h
    | none =>
      simp only [issued, h0] at h
      cases m with
      | zero => simpa using h0
      | succ m =>
        have := ih (i + 1) m (by omega)
        rw [← this]
        congr 1
        omega

end cell_test

/-- C14: for every sequence of outcomes of `StopLRPInstance`, the goroutine ends, and
the stop requests it issues are the requests number 0, 1, ... in order, without gap
and at most 100 of them; when the request with 1-based index `k` is the first that
returns an error, it issues exactly `min(100, k)` requests, and when none fails it
issues exactly 100; every request it issues comes after successful requests only, so
none is issued after a failed one. -/
theorem C14_stop_loop_issues_min_100_k (outcome : Nat → Option String) :
    (cell_test.stopLoop outcome []).1 = Except.ok () ∧
    cell_test.stopRequests (cell_test.stopLoop outcome []).2 =
      List.range (cell_test.stopRequests (cell_test.stopLoop outcome []).2).length ∧
    (cell_test.stopRequests (cell_test.stopLoop outcome []).2).length ≤ 100 ∧
    (∀ k, 0 < k → outcome (k - 1) ≠ none → (∀ i, i < k - 1 → outcome i = none) →
      (cell_test.stopRequests (cell_test.stopLoop outcome []).2).length = min 100 k) ∧
    ((∀ i, outcome i = none) →
      (cell_test.stopRequests (cell_test.stopLoop outcome []).2).length = 100) ∧
    (∀ i ∈ cell_test.stopRequests (cell_test.stopLoop outcome []).2,
      ∀ j, j < i → outcome j = none) := by
  have hreq : cell_test.stopRequests (cell_test.stopLoop outcome []).2 =
      List.range (cell_test.issued outcome 100 0) := by
    unfold cell_test.stopLoop
    rw [cell_test.stopRequests_stopLoopFrom, List.range_eq_range']
    simp [cell_test.stopRequests]
  have hlen : (cell_test.stopRequests (cell_test.stopLoop outcome []).2).length =
      cell_test.issued outcome 100 0 := by
    rw [hreq, List.length_range]
  refine ⟨cell_test.stopLoopFrom_ok outcome 100 0 [], ?_, ?_, ?_, ?_, ?_⟩
  · rw [hlen, hreq]
  · rw [hlen]
    exact cell_test.issued_le outcome 100 0
  · intro k hk hfail hbefore
    rw [hlen]
    by_cases hk100 : k ≤ 100
    · rw [cell_test.issued_first_error outcome 100 0 (k - 1) (Nat.zero_le _) (by omega) hfail
        (fun i _ hi => hbefore i hi)]
      omega
    · rw [cell_test.issued_all_ok outcome 100 0 (fun j _ hj => hbefore j (by omega))]
      omega
  · intro hall
    rw [hlen]
    exact cell_test.issued_all_ok outcome 100 0 (fun j _ _ => hall j)
  · intro i hi j hj
    rw [hreq, List.mem_range] at hi
    have := cell_test.issued_earlier_ok outcome 100 0 j (by omega)
    simpa using this

/-- C14, at outcomes whose fourth request (0-based number 3) is the first to fail: the
goroutine issues the requests 0, 1, 2, 3 and ends. -/
theorem C14_stop_loop_issues_min_100_k_witness :
    cell_test.stopRequests
        (cell_test.stopLoop (fun i => if i = 3 then some "connection refused" else none) []).2 =
      [0, 1, 2, 3] ∧
    (cell_test.stopRequests
        (cell_test.stopLoop (fun i => if i = 3 then some "connection refused" else none)
          []).2).length = min 100 4 :=
  ⟨by decide,
    (C14_stop_loop_issues_min_100_k
      (fun i => if i = 3 then some "connection refused" else none)).2.2.2.1 4 (by decide)
      (by decide) (fun i hi => by
        have h3 : i ≠ 3 := by omega
        simp [h3])⟩

/-! ## The steps after the evacuation request -/

namespace cell_test

theorem handlesEvacuation_hosted (v : Vars) (world : World) (CellId : String)
    (h : placedOn world CellId) (hc : CellId = v.cellAID ∨ CellId = v.cellBID) :
    handlesEvacuation v world [] =
      evacuateAndVerify world (evacuatingRepRunner v CellId) (evacuatingRepPort v CellId)
        [Event.By "desiring an LRP", Event.By "running an actual LRP instance"] := by
  rw [handlesEvacuation_placed v world CellId h]
  by_cases ha : CellId = v.cellAID
  · simp [ha, evacuatingRepRunner, evacuatingRepPort]
  · have hb : CellId = v.cellBID := hc.resolve_left ha
    have ha2 : (CellId == v.cellAID) = false := by simpa using ha
    have hb2 : (CellId == v.cellBID) = true := by simpa using hb
    simp [ha2, hb2, evacuatingRepRunner, evacuatingRepPort]

theorem routerProbe_stayingRoutable (r : RepRunner) (samples : List Sample) (log : List Event)
    (h : samples ≠ []) : Event.RouterProbe ∈ (stayingRoutable r samples log).2 := by
  cases samples with
  | nil => exact absurd rfl h
  | cons a rest =>
    rw [stayingRoutable_cons]
    by_cases hs : a.status = 200
    · by_cases he : a.exitCode = 0
      · simp [hs, he]
      · obtain ⟨evs, hevs⟩ := stayingRoutable_extends r rest
          (log ++ [Event.RouterProbe, Event.ExitCode r])
        simp only [hs, he, if_true, if_false]
        rw [hevs]
        simp
    · simp [hs]

theorem mem_stopRequests (log : List StopLoopEvent) (i : Nat) :
    i ∈ stopRequests log ↔ StopLoopEvent.StopLRPInstance i ∈ log := by
  induction log with
  | nil => simp [stopRequests]
  | cons e rest ih =>
    cases e with
    | StopLRPInstance j =>
      simp only [stopRequests, List.filterMap_cons, List.mem_cons, StopLoopEvent.StopLRPInstance.injEq]
      unfold stopRequests at ih
      rw [ih]
    | Sleep n =>
      simp only [stopRequests, List.filterMap_cons, List.mem_cons]
      unfold stopRequests at ih
      rw [ih]
      simp

theorem issued_pos (outcome : Nat → Option String) (n i : Nat) :
    1 ≤ issued outcome (n + 1) i := by
  cases h : outcome i with
  | some e => simp only [issued, h]; exact Nat.le_refl 1
  | none => simp only [issued, h]; omega

theorem stopLoop_first_request (outcome : Nat → Option String) :
    StopLoopEvent.StopLRPInstance 0 ∈ (stopLoop outcome []).2 := by
  rw [← mem_stopRequests]
  unfold stopLoop
  rw [stopRequests_stopLoopFrom]
  have h1 : 1 ≤ issued outcome 100 0 := issued_pos outcome 99 0
  simp only [stopRequests, List.filterMap_nil, List.nil_append, List.mem_range']
  exact ⟨0, by omega, by simp⟩

theorem backgroundEvents_append (l1 l2 : List Event) :
    backgroundEvents (l1 ++ l2) = backgroundEvents l1 ++ backgroundEvents l2 := by
  simp [backgroundEvents]

theorem backgroundEvents_map (evs : List StopLoopEvent) :
    backgroundEvents (evs.map Event.Background) = evs := by
  induction evs with
  | nil => rfl
  | cons e rest ih =>
    unfold backgroundEvents at ih ⊢
    simp only [List.map_cons, List.filterMap_cons]
    rw [ih]

theorem shutsDownGracefully_accepted (v : Vars) (world : World)
    (h : lrpRunning world) (hp : world.post (evacuateURL v.cellPortsStart) = Except.ok 202) :
    (shutsDownGracefully v world []).2 =
      shutdownLead ++ [Event.Post (evacuateURL v.cellPortsStart) "text/html", Event.BodyClose,
        Event.CreateClient (clientAddr v) (clientSecureAddr v)] ++
        (if world.createClientErr = none ∧ world.groupErr = none then
          Event.Go "StopLRPInstance" ::
            ((stopLoop world.stopOutcome []).2.map Event.Background ++
              [Event.Wait "cellA" (10 * Second)])
         else []) := by
  obtain ⟨h1, h2⟩ := h
  simp only [shutsDownGracefully, Test.bind_apply, By, emit, Test.modify, h1, Test.expectNoError,
    Test.ret, Test.Eventually_pure, h2, postEvacuate_status world _ _ 202 hp, if_true,
    shutdownLead, clientAddr, clientSecureAddr, goBackground]
  cases hc : world.createClientErr with
  | some e => simp [Test.abort]
  | none =>
    cases hg : world.groupErr with
    | some e => simp [Test.abort, Test.ret]
    | none => cases hw : world.waitReceives <;> simp [Test.expect, hw, Test.ret]

end cell_test

/-- C10 (counterexample): in `shuts down gracefully after the evacuation timeout` the
POST returns status 202 without transport error, but `factory.CreateClient` fails:
the scenario fails before the goroutine is started, and no stop request is made. -/
theorem C10_accepted_without_stop_requests :
    cell_test.sampleWorldNoClient.post (cell_test.evacuateURL cell_test.sampleVars.cellPortsStart) =
      Except.ok 202 ∧
    cell_test.lrpRunning cell_test.sampleWorldNoClient ∧
    Test.failed (cell_test.shutsDownGracefully cell_test.sampleVars
      cell_test.sampleWorldNoClient []).1 = true ∧
    cell_test.backgroundEvents (cell_test.shutsDownGracefully cell_test.sampleVars
      cell_test.sampleWorldNoClient []).2 = [] ∧
    cell_test.Event.Go "StopLRPInstance" ∉
      (cell_test.shutsDownGracefully cell_test.sampleVars cell_test.sampleWorldNoClient []).2 := by
  refine ⟨rfl, ⟨rfl, rfl⟩, ?_, ?_, ?_⟩ <;> decide

/-- C10 (amended): in both evacuation scenarios the step that directly follows the
`/evacuate` request runs if and only if the POST returned without transport error
and with status code 202: in `handles evacuation` (workload placed on one of the two
cells) the step `staying routable so long as its rep is alive` is begun, and the
router is probed when there is a poll at all, exactly in that case; in `shuts down
gracefully after the evacuation timeout` the rep client is created exactly in that
case.  The goroutine is started, and makes its first stop request, exactly when
moreover `CreateClient` and the lookup of the LRP group return no error; it then
makes the requests of the loop.  For every other outcome of the POST the scenario
fails and its log ends with the request (followed by the closing of the body when
there was a response). -/
theorem C10_later_steps_iff_accepted (v : cell_test.Vars) (world : cell_test.World)
    (CellId : String) :
    (cell_test.placedOn world CellId → CellId = v.cellAID ∨ CellId = v.cellBID →
      ((cell_test.Event.By "staying routable so long as its rep is alive" ∈
          (cell_test.handlesEvacuation v world []).2 ↔
        world.post (cell_test.evacuateURL (cell_test.evacuatingRepPort v CellId)) =
          Except.ok 202) ∧
      (world.samples ≠ [] →
        (cell_test.Event.RouterProbe ∈ (cell_test.handlesEvacuation v world []).2 ↔
          world.post (cell_test.evacuateURL (cell_test.evacuatingRepPort v CellId)) =
            Except.ok 202)) ∧
      (world.post (cell_test.evacuateURL (cell_test.evacuatingRepPort v CellId)) ≠ Except.ok 202 →
        Test.failed (cell_test.handlesEvacuation v world []).1 = true ∧
        ((cell_test.handlesEvacuation v world []).2 = cell_test.evacuationLead ++
            [cell_test.Event.Post
              (cell_test.evacuateURL (cell_test.evacuatingRepPort v CellId)) "text/html"] ∨
          (cell_test.handlesEvacuation v world []).2 = cell_test.evacuationLead ++
            [cell_test.Event.Post
              (cell_test.evacuateURL (cell_test.evacuatingRepPort v CellId)) "text/html",
              cell_test.Event.BodyClose])))) ∧
    (cell_test.lrpRunning world →
      ((cell_test.Event.CreateClient (cell_test.clientAddr v) (cell_test.clientSecureAddr v) ∈
          (cell_test.shutsDownGracefully v world []).2 ↔
        world.post (cell_test.evacuateURL v.cellPortsStart) = Except.ok 202) ∧
      (cell_test.Event.Go "StopLRPInstance" ∈ (cell_test.shutsDownGracefully v world []).2 ↔
        world.post (cell_test.evacuateURL v.cellPortsStart) = Except.ok 202 ∧
          world.createClientErr = none ∧ world.groupErr = none) ∧
      (cell_test.Event.Background (cell_test.StopLoopEvent.StopLRPInstance 0) ∈
          (cell_test.shutsDownGracefully v world []).2 ↔
        world.post (cell_test.evacuateURL v.cellPortsStart) = Except.ok 202 ∧
          world.createClientErr = none ∧ world.groupErr = none) ∧
      (world.post (cell_test.evacuateURL v.cellPortsStart) = Except.ok 202 →
        world.createClientErr = none → world.groupErr = none →
        cell_test.backgroundEvents (cell_test.shutsDownGracefully v world []).2 =
          (cell_test.stopLoop world.stopOutcome []).2) ∧
      (world.post (cell_test.evacuateURL v.cellPortsStart) ≠ Except.ok 202 →
        Test.failed (cell_test.shutsDownGracefully v world []).1 = true ∧
        cell_test.backgroundEvents (cell_test.shutsDownGracefully v world []).2 = [] ∧
        ((cell_test.shutsDownGracefully v world []).2 = cell_test.shutdownLead ++
            [cell_test.Event.Post (cell_test.evacuateURL v.cellPortsStart) "text/html"] ∨
          (cell_test.shutsDownGracefully v world []).2 = cell_test.shutdownLead ++
            [cell_test.Event.Post (cell_test.evacuateURL v.cellPortsStart) "text/html",
              cell_test.Event.BodyClose])))) := by
  constructor
  · intro hplaced hc
    rw [cell_test.handlesEvacuation_hosted v world CellId hplaced hc]
    cases hp : world.post (cell_test.evacuateURL (cell_test.evacuatingRepPort v CellId)) with
    | error e =>
      rw [cell_test.evacuateAndVerify_transport_error world _ _ _ e hp]
      refine ⟨?_, fun _ => ?_, fun _ => ⟨rfl, Or.inl rfl⟩⟩
      · constructor
        · intro h; simp at h
        · intro h; cases h
      · constructor
        · intro h; simp at h
        · intro h; cases h
    | ok status =>
      by_cases hs : status = 202
      · subst hs
        obtain ⟨evs, hevs⟩ := cell_test.stayingRoutable_extends
          (cell_test.evacuatingRepRunner v CellId) world.samples
          ([cell_test.Event.By "desiring an LRP",
              cell_test.Event.By "running an actual LRP instance"] ++
            [cell_test.Event.By "posting the evacuation endpoint",
              cell_test.Event.Post
                (cell_test.evacuateURL (cell_test.evacuatingRepPort v CellId)) "text/html",
              cell_test.Event.BodyClose,
              cell_test.Event.By "staying routable so long as its rep is alive"])
        refine ⟨⟨fun _ => rfl, fun _ => ?_⟩, fun hne => ⟨fun _ => rfl, fun _ => ?_⟩,
          fun h => absurd rfl h⟩
        · rw [cell_test.evacuateAndVerify_accepted world _ _ _ hp, hevs]
          simp
        · rw [cell_test.evacuateAndVerify_accepted world _ _ _ hp]
          exact List.mem_append_left _
            (cell_test.routerProbe_stayingRoutable _ world.samples _ hne)
      · rw [cell_test.evacuateAndVerify_other_status world _ _ _ status hp hs]
        refine ⟨?_, fun _ => ?_, fun _ => ⟨rfl, Or.inr rfl⟩⟩
        · constructor
          · intro h; simp at h
          · intro h
            exact absurd (Except.ok.inj h) hs
        · constructor
          · intro h; simp at h
          · intro h
            exact absurd (Except.ok.inj h) hs
  · intro hrun
    cases hp : world.post (cell_test.evacuateURL v.cellPortsStart) with
    | error e =>
      rw [cell_test.shutsDownGracefully_transport_error v world e hrun hp]
      refine ⟨?_, ?_, ?_, (fun h => by cases h),
        fun _ => ⟨rfl, by simp [cell_test.backgroundEvents, cell_test.shutdownLead], Or.inl rfl⟩⟩
      · constructor
        · intro h; simp [cell_test.shutdownLead] at h
        · intro h; cases h
      · constructor
        · intro h; simp [cell_test.shutdownLead] at h
        · intro h; cases h.1
      · constructor
        · intro h; simp [cell_test.shutdownLead] at h
        · intro h; cases h.1
    | ok status =>
      by_cases hs : status = 202
      · subst hs
        rw [cell_test.shutsDownGracefully_accepted v world hrun hp]
        refine ⟨⟨fun _ => rfl, fun _ => by simp⟩, ?_, ?_, ?_, fun h => absurd rfl h⟩
        · by_cases hcg : world.createClientErr = none ∧ world.groupErr = none
          · simp [hcg]
          · simp only [hcg, if_false, List.append_nil, true_and]
            constructor
            · intro h; simp [cell_test.shutdownLead] at h
            · intro h; exact h.elim
        · by_cases hcg : world.createClientErr = none ∧ world.groupErr = none
          · simp only [hcg, if_true, and_self, and_true, true_and, iff_true]
            apply List.mem_append_right
            apply List.mem_cons_of_mem
            apply List.mem_append_left
            exact List.mem_map_of_mem _ (cell_test.stopLoop_first_request world.stopOutcome)
          · simp only [hcg, if_false, List.append_nil, true_and]
            constructor
            · intro h; simp [cell_test.shutdownLead] at h
            · intro h; exact h.elim
        · intro _ hc hg
          simp only [hc, hg, and_self, if_true]
          rw [cell_test.backgroundEvents_append]
          have hlead : cell_test.backgroundEvents (cell_test.shutdownLead ++
              [cell_test.Event.Post (cell_test.evacuateURL v.cellPortsStart) "text/html",
                cell_test.Event.BodyClose,
                cell_test.Event.CreateClient (cell_test.clientAddr v)
                  (cell_test.clientSecureAddr v)]) = [] := by
            simp [cell_test.backgroundEvents, cell_test.shutdownLead]
          rw [hlead, List.nil_append]
          have hcons : cell_test.backgroundEvents
              (cell_test.Event.Go "StopLRPInstance" ::
                ((cell_test.stopLoop world.stopOutcome []).2.map cell_test.Event.Background ++
                  [cell_test.Event.Wait "cellA" (10 * cell_test.Second)])) =
              cell_test.backgroundEvents
                ((cell_test.stopLoop world.stopOutcome []).2.map cell_test.Event.Background) ++
              cell_test.backgroundEvents [cell_test.Event.Wait "cellA" (10 * cell_test.Second)] := by
            rw [← cell_test.backgroundEvents_append]
            simp [cell_test.backgroundEvents]
          rw [hcons, cell_test.backgroundEvents_map]
          simp [cell_test.backgroundEvents]
      · rw [cell_test.shutsDownGracefully_other_status v world status hrun hp hs]
        refine ⟨?_, ?_, ?_, (fun h => absurd (Except.ok.inj h) hs),
          fun _ => ⟨rfl, by simp [cell_test.backgroundEvents, cell_test.shutdownLead], Or.inr rfl⟩⟩
        · constructor
          · intro h; simp [cell_test.shutdownLead] at h
          · intro h; exact absurd (Except.ok.inj h) hs
        · constructor
          · intro h; simp [cell_test.shutdownLead] at h
          · intro h; exact absurd (Except.ok.inj h.1) hs
        · constructor
          · intro h; simp [cell_test.shutdownLead] at h
          · intro h; exact absurd (Except.ok.inj h.1) hs

/-- C10 (amended), at a rep that answers with status 202 and a goroutine whose third
stop request fails: the goroutine runs and makes the requests 0, 1, 2; and at a rep
that answers with status 500 the first scenario fails at the request. -/
theorem C10_later_steps_iff_accepted_witness :
    cell_test.lrpRunning (cell_test.sampleWorld "cell-a" 202) ∧
    (cell_test.sampleWorld "cell-a" 202).post
        (cell_test.evacuateURL cell_test.sampleVars.cellPortsStart) = Except.ok 202 ∧
    cell_test.backgroundEvents (cell_test.shutsDownGracefully cell_test.sampleVars
        (cell_test.sampleWorld "cell-a" 202) []).2 =
      (cell_test.stopLoop (cell_test.sampleWorld "cell-a" 202).stopOutcome []).2 ∧
    cell_test.stopRequests (cell_test.backgroundEvents (cell_test.shutsDownGracefully
        cell_test.sampleVars (cell_test.sampleWorld "cell-a" 202) []).2) = [0, 1, 2] ∧
    cell_test.placedOn (cell_test.sampleWorld "cell-a" 500) "cell-a" ∧
    Test.failed (cell_test.handlesEvacuation cell_test.sampleVars
      (cell_test.sampleWorld "cell-a" 500) []).1 = true :=
  ⟨⟨rfl, rfl⟩, rfl,
    ((C10_later_steps_iff_accepted cell_test.sampleVars (cell_test.sampleWorld "cell-a" 202)
      "cell-a").2 ⟨rfl, rfl⟩).2.2.2.1 rfl rfl rfl,
    by decide,
    ⟨rfl, rfl, rfl, rfl, rfl⟩,
    (((C10_later_steps_iff_accepted cell_test.sampleVars (cell_test.sampleWorld "cell-a" 500)
      "cell-a").1 ⟨rfl, rfl, rfl, rfl, rfl⟩ (Or.inl rfl)).2.2
        (fun h => absurd (Except.ok.inj h) (by decide))).1⟩
